import Mathlib

/-!
# ja-rule firmware: the moving-light RDM responder model and the host message handler

A shallow embedding of `firmware/src/moving_light.c` (with the constants of
`firmware/src/rdm.h`) and of `firmware/src/message_handler.c`.  The
file-static `g_moving_light` becomes an explicit record that every handler
receives and returns.  Everything the model calls in other translation units
(`rdm_responder.c`, `rdm_util.c`, `coarse_timer.c`) is not part of the sources
at hand; those functions are parameters, gathered in `Primitives` and
`Collaborators`, and every theorem about the model holds for all of them.  The
message handler is treated the same way, with `HostCollaborators`.

Machine integers are natural numbers; `uint8_t` reads are reduced modulo 256
and the `uint32_t` counter increments modulo 2^32.
-/

namespace JaRule

/-! ## Constants of rdm.h -/

def SUBDEVICE_ROOT : Nat := 0
def SUBDEVICE_ALL : Nat := 0xffff

def UID_LENGTH : Nat := 6

def DISCOVERY_COMMAND : Nat := 0x10
def DISCOVERY_COMMAND_RESPONSE : Nat := 0x11
def GET_COMMAND : Nat := 0x20
def GET_COMMAND_RESPONSE : Nat := 0x21
def SET_COMMAND : Nat := 0x30
def SET_COMMAND_RESPONSE : Nat := 0x31

def ACK : Nat := 0x00
def ACK_TIMER : Nat := 0x01
def NACK_REASON : Nat := 0x02
def ACK_OVERFLOW : Nat := 0x03

def PID_DISC_UNIQUE_BRANCH : Nat := 0x0001
def PID_DISC_MUTE : Nat := 0x0002
def PID_DISC_UN_MUTE : Nat := 0x0003
def PID_SUPPORTED_PARAMETERS : Nat := 0x0050
def PID_DEVICE_INFO : Nat := 0x0060
def PID_PRODUCT_DETAIL_ID_LIST : Nat := 0x0070
def PID_DEVICE_MODEL_DESCRIPTION : Nat := 0x0080
def PID_MANUFACTURER_LABEL : Nat := 0x0081
def PID_DEVICE_LABEL : Nat := 0x0082
def PID_SOFTWARE_VERSION_LABEL : Nat := 0x00c0
def PID_DMX_PERSONALITY : Nat := 0x00e0
def PID_DMX_PERSONALITY_DESCRIPTION : Nat := 0x00e1
def PID_DMX_START_ADDRESS : Nat := 0x00f0
def PID_SLOT_INFO : Nat := 0x0120
def PID_SLOT_DESCRIPTION : Nat := 0x0121
def PID_DEFAULT_SLOT_VALUE : Nat := 0x0122
def PID_DEVICE_HOURS : Nat := 0x0400
def PID_LAMP_HOURS : Nat := 0x0401
def PID_LAMP_STRIKES : Nat := 0x0402
def PID_LAMP_STATE : Nat := 0x0403
def PID_LAMP_ON_MODE : Nat := 0x0404
def PID_DEVICE_POWER_CYCLES : Nat := 0x0405
def PID_DISPLAY_INVERT : Nat := 0x0500
def PID_DISPLAY_LEVEL : Nat := 0x0501
def PID_PAN_INVERT : Nat := 0x0600
def PID_TILT_INVERT : Nat := 0x0601
def PID_PAN_TILT_SWAP : Nat := 0x0602
def PID_IDENTIFY_DEVICE : Nat := 0x1000
def PID_POWER_STATE : Nat := 0x1010

def NR_UNKNOWN_PID : Nat := 0x0000
def NR_FORMAT_ERROR : Nat := 0x0001
def NR_UNSUPPORTED_COMMAND_CLASS : Nat := 0x0005
def NR_DATA_OUT_OF_RANGE : Nat := 0x0006
def NR_SUB_DEVICE_OUT_OF_RANGE : Nat := 0x0009

def LAMP_OFF : Nat := 0x00
def LAMP_ON : Nat := 0x01
def LAMP_STRIKE : Nat := 0x02

def LAMP_ON_MODE_OFF : Nat := 0x00
def LAMP_ON_MODE_DMX : Nat := 0x01
def LAMP_ON_MODE_ON : Nat := 0x02
def LAMP_ON_MODE_ON_AFTER_CAL : Nat := 0x03

def DISPLAY_INVERT_OFF : Nat := 0x00
def DISPLAY_INVERT_ON : Nat := 0x01
def DISPLAY_INVERT_AUTO : Nat := 0x02

def POWER_STATE_FULL_OFF : Nat := 0x00
def POWER_STATE_SHUTDOWN : Nat := 0x01
def POWER_STATE_STANDBY : Nat := 0x02
def POWER_STATE_NORMAL : Nat := 0xff

/-! ## Constants of moving_light.c -/

def LAMP_STRIKE_DELAY : Nat := 50000

/-! ## Data model -/

/-- Modelled from the spec: the RDM header of rdm_frame.h, which is not among
the sources.  The fields are those of the spec's data model (destination and
source UID, transaction number, port / response type, message count,
sub-device, command class, parameter ID, parameter-data length).  The two
16-bit fields hold the value the host reads from the frame, that is, still in
network byte order. -/
structure RDMHeader where
  dest_uid : List Nat
  src_uid : List Nat
  transaction_number : Nat
  port_id : Nat
  message_count : Nat
  sub_device : Nat
  command_class : Nat
  param_id : Nat
  param_data_length : Nat
deriving DecidableEq, Repr

/-- The C library's `ntohs` on the little-endian target: the two bytes of a
16-bit value are exchanged. -/
def ntohs (x : Nat) : Nat := (x % 256) * 256 + (x / 256) % 256

/-- The read `param_data[i]` of a `const uint8_t *`: one byte. -/
def byteAt (param_data : List Nat) (i : Nat) : Nat := param_data.getD i 0 % 256

/-- The simple model state: `MovingLightModel` of moving_light.c. -/
structure MovingLightModel where
  device_hours : Nat
  lamp_hours : Nat
  lamp_strikes : Nat
  device_power_cycles : Nat
  lamp_strike_time : Nat
  lamp_state : Nat
  lamp_on_mode : Nat
  display_level : Nat
  display_invert : Nat
  power_state : Nat
  pan_invert : Bool
  tilt_invert : Bool
  pan_tilt_swap : Bool
deriving DecidableEq, Repr

/-- One call from moving_light.c into the responder core, as recorded in the
call log. -/
inductive Call where
  | BuildNack (header : RDMHeader) (reason : Nat)
  | BuildSetAck (header : RDMHeader)
  | GenericGetBool (header : RDMHeader) (value : Bool)
  | GenericSetBool (header : RDMHeader) (param_data : List Nat)
  | GenericGetUInt8 (header : RDMHeader) (value : Nat)
  | GenericSetUInt8 (header : RDMHeader) (param_data : List Nat)
  | GenericGetUInt32 (header : RDMHeader) (value : Nat)
  | GenericSetUInt32 (header : RDMHeader) (param_data : List Nat)
  | HandleDiscovery (header : RDMHeader) (param_data : List Nat)
  | DispatchPID (header : RDMHeader) (param_data : List Nat)
  | GetUID
  | ResetToFactoryDefaults
deriving DecidableEq, Repr

/-- The whole program state seen by the model: its own static
`g_moving_light`, the state `world` owned by the other translation units
(`g_responder`, the response frame buffer, the coarse timer), and the log of
the calls made into the responder core so far. -/
structure Firmware (W : Type) where
  g_moving_light : MovingLightModel
  world : W
  calls : List Call
deriving DecidableEq, Repr

/-- The functions of rdm_responder.c, rdm_util.c and coarse_timer.c that the
PID handlers and `MovingLightModel_Tasks` call.  None of them can name the
file-static `g_moving_light`, so they act on `world` alone; the generic
setters receive the pointee and return its new value. -/
structure Primitives (W : Type) where
  RDM_RESPONDER_NO_RESPONSE : Int
  RDMResponder_BuildNack : RDMHeader → Nat → W → Int × W
  RDMResponder_BuildSetAck : RDMHeader → W → Int × W
  RDMResponder_GenericGetBool : RDMHeader → Bool → W → Int × W
  RDMResponder_GenericSetBool : RDMHeader → List Nat → Bool → W → Int × W × Bool
  RDMResponder_GenericGetUInt8 : RDMHeader → Nat → W → Int × W
  RDMResponder_GenericSetUInt8 : RDMHeader → List Nat → Nat → W → Int × W × Nat
  RDMResponder_GenericGetUInt32 : RDMHeader → Nat → W → Int × W
  RDMResponder_GenericSetUInt32 : RDMHeader → List Nat → Nat → W → Int × W × Nat
  CoarseTimer_GetTime : W → Nat
  CoarseTimer_HasElapsed : Nat → Nat → W → Bool

/-- The further functions `MovingLightModel_HandleRequest` calls: the UID
test of rdm_util.c, the read of `g_responder.uid`, the discovery handler and
the PID dispatcher.  The last two may run any handler of the PID table, so
they act on the whole program state. -/
structure Collaborators (W : Type) extends Primitives W where
  g_responder_uid : W → List Nat
  RDMUtil_RequiresAction : List Nat → List Nat → Bool
  RDMResponder_HandleDiscovery : RDMHeader → List Nat → Firmware W → Int × Firmware W
  RDMResponder_DispatchPID : RDMHeader → List Nat → Firmware W → Int × Firmware W

/-! ## Call sites: run a responder function and record the call -/

section CallSites
variable {W : Type}

def call_BuildNack (p : Primitives W) (header : RDMHeader) (reason : Nat)
    (s : Firmware W) : Int × Firmware W :=
  let r := p.RDMResponder_BuildNack header reason s.world
  (r.1, { s with world := r.2, calls := s.calls ++ [Call.BuildNack header reason] })

def call_BuildSetAck (p : Primitives W) (header : RDMHeader)
    (s : Firmware W) : Int × Firmware W :=
  let r := p.RDMResponder_BuildSetAck header s.world
  (r.1, { s with world := r.2, calls := s.calls ++ [Call.BuildSetAck header] })

def call_GenericGetBool (p : Primitives W) (header : RDMHeader) (value : Bool)
    (s : Firmware W) : Int × Firmware W :=
  let r := p.RDMResponder_GenericGetBool header value s.world
  (r.1, { s with world := r.2, calls := s.calls ++ [Call.GenericGetBool header value] })

def call_GenericSetBool (p : Primitives W) (header : RDMHeader)
    (param_data : List Nat) (value : Bool) (s : Firmware W) :
    Int × Firmware W × Bool :=
  let r := p.RDMResponder_GenericSetBool header param_data value s.world
  (r.1, { s with world := r.2.1,
                 calls := s.calls ++ [Call.GenericSetBool header param_data] }, r.2.2)

def call_GenericGetUInt8 (p : Primitives W) (header : RDMHeader) (value : Nat)
    (s : Firmware W) : Int × Firmware W :=
  let r := p.RDMResponder_GenericGetUInt8 header value s.world
  (r.1, { s with world := r.2, calls := s.calls ++ [Call.GenericGetUInt8 header value] })

def call_GenericSetUInt8 (p : Primitives W) (header : RDMHeader)
    (param_data : List Nat) (value : Nat) (s : Firmware W) :
    Int × Firmware W × Nat :=
  let r := p.RDMResponder_GenericSetUInt8 header param_data value s.world
  (r.1, { s with world := r.2.1,
                 calls := s.calls ++ [Call.GenericSetUInt8 header param_data] }, r.2.2)

def call_GenericGetUInt32 (p : Primitives W) (header : RDMHeader) (value : Nat)
    (s : Firmware W) : Int × Firmware W :=
  let r := p.RDMResponder_GenericGetUInt32 header value s.world
  (r.1, { s with world := r.2, calls := s.calls ++ [Call.GenericGetUInt32 header value] })

def call_GenericSetUInt32 (p : Primitives W) (header : RDMHeader)
    (param_data : List Nat) (value : Nat) (s : Firmware W) :
    Int × Firmware W × Nat :=
  let r := p.RDMResponder_GenericSetUInt32 header param_data value s.world
  (r.1, { s with world := r.2.1,
                 calls := s.calls ++ [Call.GenericSetUInt32 header param_data] }, r.2.2)

def call_HandleDiscovery (c : Collaborators W) (header : RDMHeader)
    (param_data : List Nat) (s : Firmware W) : Int × Firmware W :=
  c.RDMResponder_HandleDiscovery header param_data
    { s with calls := s.calls ++ [Call.HandleDiscovery header param_data] }

def call_DispatchPID (c : Collaborators W) (header : RDMHeader)
    (param_data : List Nat) (s : Firmware W) : Int × Firmware W :=
  c.RDMResponder_DispatchPID header param_data
    { s with calls := s.calls ++ [Call.DispatchPID header param_data] }

end CallSites

/-! ## PID handlers of moving_light.c -/

section Handlers
variable {W : Type}

/-- Store the new value of the pointee of a generic setter in the model. -/
def storeField {α : Type} (r : Int × Firmware W × α)
    (put : MovingLightModel → α → MovingLightModel) : Int × Firmware W :=
  (r.1, { r.2.1 with g_moving_light := put r.2.1.g_moving_light r.2.2 })

def MovingLightModel_GetBool (p : Primitives W) (header : RDMHeader)
    (_param_data : List Nat) (s : Firmware W) : Int × Firmware W :=
  let pid := ntohs header.param_id
  if pid = PID_PAN_INVERT then
    call_GenericGetBool p header s.g_moving_light.pan_invert s
  else if pid = PID_TILT_INVERT then
    call_GenericGetBool p header s.g_moving_light.tilt_invert s
  else if pid = PID_PAN_TILT_SWAP then
    call_GenericGetBool p header s.g_moving_light.pan_tilt_swap s
  else
    (p.RDM_RESPONDER_NO_RESPONSE, s)

def MovingLightModel_SetBool (p : Primitives W) (header : RDMHeader)
    (param_data : List Nat) (s : Firmware W) : Int × Firmware W :=
  let pid := ntohs header.param_id
  if pid = PID_PAN_INVERT then
    storeField (call_GenericSetBool p header param_data s.g_moving_light.pan_invert s)
      (fun g v => { g with pan_invert := v })
  else if pid = PID_TILT_INVERT then
    storeField (call_GenericSetBool p header param_data s.g_moving_light.tilt_invert s)
      (fun g v => { g with tilt_invert := v })
  else if pid = PID_PAN_TILT_SWAP then
    storeField (call_GenericSetBool p header param_data s.g_moving_light.pan_tilt_swap s)
      (fun g v => { g with pan_tilt_swap := v })
  else
    (p.RDM_RESPONDER_NO_RESPONSE, s)

def MovingLightModel_GetUInt8 (p : Primitives W) (header : RDMHeader)
    (_param_data : List Nat) (s : Firmware W) : Int × Firmware W :=
  let pid := ntohs header.param_id
  if pid = PID_LAMP_STATE then
    call_GenericGetUInt8 p header s.g_moving_light.lamp_state s
  else if pid = PID_LAMP_ON_MODE then
    call_GenericGetUInt8 p header s.g_moving_light.lamp_on_mode s
  else if pid = PID_DISPLAY_INVERT then
    call_GenericGetUInt8 p header s.g_moving_light.display_invert s
  else if pid = PID_DISPLAY_LEVEL then
    call_GenericGetUInt8 p header s.g_moving_light.display_level s
  else if pid = PID_POWER_STATE then
    call_GenericGetUInt8 p header s.g_moving_light.power_state s
  else
    (p.RDM_RESPONDER_NO_RESPONSE, s)

def MovingLightModel_SetUInt8 (p : Primitives W) (header : RDMHeader)
    (param_data : List Nat) (s : Firmware W) : Int × Firmware W :=
  let pid := ntohs header.param_id
  if pid = PID_DISPLAY_LEVEL then
    storeField (call_GenericSetUInt8 p header param_data s.g_moving_light.display_level s)
      (fun g v => { g with display_level := v })
  else
    (p.RDM_RESPONDER_NO_RESPONSE, s)

def MovingLightModel_GetUInt32 (p : Primitives W) (header : RDMHeader)
    (_param_data : List Nat) (s : Firmware W) : Int × Firmware W :=
  let pid := ntohs header.param_id
  if pid = PID_DEVICE_HOURS then
    call_GenericGetUInt32 p header s.g_moving_light.device_hours s
  else if pid = PID_LAMP_HOURS then
    call_GenericGetUInt32 p header s.g_moving_light.lamp_hours s
  else if pid = PID_LAMP_STRIKES then
    call_GenericGetUInt32 p header s.g_moving_light.lamp_strikes s
  else if pid = PID_DEVICE_POWER_CYCLES then
    call_GenericGetUInt32 p header s.g_moving_light.device_power_cycles s
  else
    (p.RDM_RESPONDER_NO_RESPONSE, s)

def MovingLightModel_SetUInt32 (p : Primitives W) (header : RDMHeader)
    (param_data : List Nat) (s : Firmware W) : Int × Firmware W :=
  let pid := ntohs header.param_id
  if pid = PID_DEVICE_HOURS then
    storeField (call_GenericSetUInt32 p header param_data s.g_moving_light.device_hours s)
      (fun g v => { g with device_hours := v })
  else if pid = PID_LAMP_HOURS then
    storeField (call_GenericSetUInt32 p header param_data s.g_moving_light.lamp_hours s)
      (fun g v => { g with lamp_hours := v })
  else if pid = PID_LAMP_STRIKES then
    storeField (call_GenericSetUInt32 p header param_data s.g_moving_light.lamp_strikes s)
      (fun g v => { g with lamp_strikes := v })
  else if pid = PID_DEVICE_POWER_CYCLES then
    storeField
      (call_GenericSetUInt32 p header param_data s.g_moving_light.device_power_cycles s)
      (fun g v => { g with device_power_cycles := v })
  else
    (p.RDM_RESPONDER_NO_RESPONSE, s)

def MovingLightModel_SetLampState (p : Primitives W) (header : RDMHeader)
    (param_data : List Nat) (s : Firmware W) : Int × Firmware W :=
  if header.param_data_length ≠ 1 then
    call_BuildNack p header NR_FORMAT_ERROR s
  else if byteAt param_data 0 > LAMP_STRIKE then
    call_BuildNack p header NR_DATA_OUT_OF_RANGE s
  else
    let g := s.g_moving_light
    let g1 :=
      if g.lamp_state = LAMP_OFF ∧ byteAt param_data 0 = LAMP_ON then
        { g with lamp_strikes := (g.lamp_strikes + 1) % 2 ^ 32 }
      else g
    let g2 := { g1 with lamp_state := byteAt param_data 0 }
    let g3 :=
      if g2.lamp_state = LAMP_STRIKE then
        { g2 with lamp_strike_time := p.CoarseTimer_GetTime s.world }
      else g2
    call_BuildSetAck p header { s with g_moving_light := g3 }

def MovingLightModel_SetLampOnMode (p : Primitives W) (header : RDMHeader)
    (param_data : List Nat) (s : Firmware W) : Int × Firmware W :=
  if header.param_data_length ≠ 1 then
    call_BuildNack p header NR_FORMAT_ERROR s
  else if byteAt param_data 0 > LAMP_ON_MODE_ON_AFTER_CAL then
    call_BuildNack p header NR_DATA_OUT_OF_RANGE s
  else
    call_BuildSetAck p header
      { s with g_moving_light :=
          { s.g_moving_light with lamp_on_mode := byteAt param_data 0 } }

def MovingLightModel_SetDisplayInvert (p : Primitives W) (header : RDMHeader)
    (param_data : List Nat) (s : Firmware W) : Int × Firmware W :=
  if header.param_data_length ≠ 1 then
    call_BuildNack p header NR_FORMAT_ERROR s
  else if byteAt param_data 0 > DISPLAY_INVERT_AUTO then
    call_BuildNack p header NR_DATA_OUT_OF_RANGE s
  else
    call_BuildSetAck p header
      { s with g_moving_light :=
          { s.g_moving_light with display_invert := byteAt param_data 0 } }

def MovingLightModel_SetPowerState (p : Primitives W) (header : RDMHeader)
    (param_data : List Nat) (s : Firmware W) : Int × Firmware W :=
  if header.param_data_length ≠ 1 then
    call_BuildNack p header NR_FORMAT_ERROR s
  else if byteAt param_data 0 > POWER_STATE_NORMAL then
    call_BuildNack p header NR_DATA_OUT_OF_RANGE s
  else
    call_BuildSetAck p header
      { s with g_moving_light :=
          { s.g_moving_light with power_state := byteAt param_data 0 } }

end Handlers

/-! ## Public functions of moving_light.c -/

section PublicFunctions
variable {W : Type}

/-- The state written by `MovingLightModel_Initialize`; the settings argument
is not used by the function. -/
def MovingLightModel_Initialize : MovingLightModel :=
  { device_hours := 0
    lamp_hours := 0
    lamp_strikes := 0
    device_power_cycles := 0
    lamp_strike_time := 0
    lamp_state := LAMP_OFF
    lamp_on_mode := LAMP_ON_MODE_ON
    display_level := 255
    display_invert := 0
    power_state := POWER_STATE_NORMAL
    pan_invert := false
    tilt_invert := false
    pan_tilt_swap := false }

def MovingLightModel_HandleRequest (c : Collaborators W) (header : RDMHeader)
    (param_data : List Nat) (s : Firmware W) : Int × Firmware W :=
  if !c.RDMUtil_RequiresAction (c.g_responder_uid s.world) header.dest_uid then
    (c.RDM_RESPONDER_NO_RESPONSE, s)
  else
    let sub_device := ntohs header.sub_device
    if sub_device ≠ SUBDEVICE_ROOT ∧ sub_device ≠ SUBDEVICE_ALL then
      call_BuildNack c.toPrimitives header NR_SUB_DEVICE_OUT_OF_RANGE s
    else if header.command_class = DISCOVERY_COMMAND then
      call_HandleDiscovery c header param_data s
    else if header.command_class = GET_COMMAND ∧ sub_device = SUBDEVICE_ALL then
      call_BuildNack c.toPrimitives header NR_SUB_DEVICE_OUT_OF_RANGE s
    else
      call_DispatchPID c header param_data s

def MovingLightModel_Tasks (p : Primitives W) (s : Firmware W) : Firmware W :=
  if s.g_moving_light.lamp_state = LAMP_STRIKE ∧
      p.CoarseTimer_HasElapsed s.g_moving_light.lamp_strike_time
        LAMP_STRIKE_DELAY s.world = true then
    { s with g_moving_light :=
        { s.g_moving_light with
            lamp_state := LAMP_ON
            lamp_strikes := (s.g_moving_light.lamp_strikes + 1) % 2 ^ 32 } }
  else s

end PublicFunctions

/-! ## The PID table of moving_light.c -/

/-- The handler functions named in `PID_DESCRIPTORS`: the values a
`PIDCommandHandler` function pointer takes in this model. -/
inductive PIDCommandHandler where
  | RDMResponder_GetSupportedParameters
  | RDMResponder_GetDeviceInfo
  | RDMResponder_GetProductDetailIds
  | RDMResponder_GetDeviceModelDescription
  | RDMResponder_GetManufacturerLabel
  | RDMResponder_GetDeviceLabel
  | RDMResponder_SetDeviceLabel
  | RDMResponder_GetSoftwareVersionLabel
  | RDMResponder_GetDMXPersonality
  | RDMResponder_SetDMXPersonality
  | RDMResponder_GetDMXPersonalityDescription
  | RDMResponder_GetDMXStartAddress
  | RDMResponder_SetDMXStartAddress
  | RDMResponder_GetSlotInfo
  | RDMResponder_GetSlotDescription
  | RDMResponder_GetDefaultSlotValue
  | RDMResponder_GetIdentifyDevice
  | RDMResponder_SetIdentifyDevice
  | MovingLightModel_GetBool
  | MovingLightModel_SetBool
  | MovingLightModel_GetUInt8
  | MovingLightModel_SetUInt8
  | MovingLightModel_GetUInt32
  | MovingLightModel_SetUInt32
  | MovingLightModel_SetLampState
  | MovingLightModel_SetLampOnMode
  | MovingLightModel_SetDisplayInvert
  | MovingLightModel_SetPowerState
deriving DecidableEq, Repr

/-- Modelled from the spec: the PID descriptor of rdm_responder.h, which is
not among the sources: parameter ID, get-handler reference or absent, the
request-data length expected for a get, set-handler reference or absent (the
order of the initialisers in moving_light.c). -/
structure PIDDescriptor where
  pid : Nat
  get_handler : Option PIDCommandHandler
  get_param_size : Nat
  set_handler : Option PIDCommandHandler
deriving DecidableEq, Repr

def PID_DESCRIPTORS : List PIDDescriptor :=
  [ ⟨PID_SUPPORTED_PARAMETERS, some .RDMResponder_GetSupportedParameters, 0, none⟩,
    ⟨PID_DEVICE_INFO, some .RDMResponder_GetDeviceInfo, 0, none⟩,
    ⟨PID_PRODUCT_DETAIL_ID_LIST, some .RDMResponder_GetProductDetailIds, 0, none⟩,
    ⟨PID_DEVICE_MODEL_DESCRIPTION, some .RDMResponder_GetDeviceModelDescription, 0, none⟩,
    ⟨PID_MANUFACTURER_LABEL, some .RDMResponder_GetManufacturerLabel, 0, none⟩,
    ⟨PID_DEVICE_LABEL, some .RDMResponder_GetDeviceLabel, 0,
      some .RDMResponder_SetDeviceLabel⟩,
    ⟨PID_SOFTWARE_VERSION_LABEL, some .RDMResponder_GetSoftwareVersionLabel, 0, none⟩,
    ⟨PID_DMX_PERSONALITY, some .RDMResponder_GetDMXPersonality, 0,
      some .RDMResponder_SetDMXPersonality⟩,
    ⟨PID_DMX_PERSONALITY_DESCRIPTION, some .RDMResponder_GetDMXPersonalityDescription,
      1, none⟩,
    ⟨PID_DMX_START_ADDRESS, some .RDMResponder_GetDMXStartAddress, 0,
      some .RDMResponder_SetDMXStartAddress⟩,
    ⟨PID_SLOT_INFO, some .RDMResponder_GetSlotInfo, 0, none⟩,
    ⟨PID_SLOT_DESCRIPTION, some .RDMResponder_GetSlotDescription, 2, none⟩,
    ⟨PID_DEFAULT_SLOT_VALUE, some .RDMResponder_GetDefaultSlotValue, 0, none⟩,
    ⟨PID_DEVICE_HOURS, some .MovingLightModel_GetUInt32, 0, some .MovingLightModel_SetUInt32⟩,
    ⟨PID_LAMP_HOURS, some .MovingLightModel_GetUInt32, 0, some .MovingLightModel_SetUInt32⟩,
    ⟨PID_LAMP_STRIKES, some .MovingLightModel_GetUInt32, 0, some .MovingLightModel_SetUInt32⟩,
    ⟨PID_LAMP_STATE, some .MovingLightModel_GetUInt8, 0, some .MovingLightModel_SetLampState⟩,
    ⟨PID_LAMP_ON_MODE, some .MovingLightModel_GetUInt8, 0,
      some .MovingLightModel_SetLampOnMode⟩,
    ⟨PID_DEVICE_POWER_CYCLES, some .MovingLightModel_GetUInt32, 0,
      some .MovingLightModel_SetUInt32⟩,
    ⟨PID_DISPLAY_INVERT, some .MovingLightModel_GetUInt8, 0,
      some .MovingLightModel_SetDisplayInvert⟩,
    ⟨PID_DISPLAY_LEVEL, some .MovingLightModel_GetUInt8, 0, some .MovingLightModel_SetUInt8⟩,
    ⟨PID_PAN_INVERT, some .MovingLightModel_GetBool, 0, some .MovingLightModel_SetBool⟩,
    ⟨PID_TILT_INVERT, some .MovingLightModel_GetBool, 0, some .MovingLightModel_SetBool⟩,
    ⟨PID_PAN_TILT_SWAP, some .MovingLightModel_GetBool, 0, some .MovingLightModel_SetBool⟩,
    ⟨PID_IDENTIFY_DEVICE, some .RDMResponder_GetIdentifyDevice, 0,
      some .RDMResponder_SetIdentifyDevice⟩,
    ⟨PID_POWER_STATE, some .MovingLightModel_GetUInt8, 0,
      some .MovingLightModel_SetPowerState⟩ ]

section Table
variable {W : Type}

/-- The call through a handler pointer of the table.  The model's own
handlers are the definitions above; the handlers of rdm_responder.c are not
among the sources and are the parameter `standard`, acting on `world`. -/
def invokeHandler (p : Primitives W)
    (standard : PIDCommandHandler → RDMHeader → List Nat → W → Int × W) :
    PIDCommandHandler → RDMHeader → List Nat → Firmware W → Int × Firmware W
  | .MovingLightModel_GetBool => MovingLightModel_GetBool p
  | .MovingLightModel_SetBool => MovingLightModel_SetBool p
  | .MovingLightModel_GetUInt8 => MovingLightModel_GetUInt8 p
  | .MovingLightModel_SetUInt8 => MovingLightModel_SetUInt8 p
  | .MovingLightModel_GetUInt32 => MovingLightModel_GetUInt32 p
  | .MovingLightModel_SetUInt32 => MovingLightModel_SetUInt32 p
  | .MovingLightModel_SetLampState => MovingLightModel_SetLampState p
  | .MovingLightModel_SetLampOnMode => MovingLightModel_SetLampOnMode p
  | .MovingLightModel_SetDisplayInvert => MovingLightModel_SetDisplayInvert p
  | .MovingLightModel_SetPowerState => MovingLightModel_SetPowerState p
  | h => fun header param_data s =>
      let r := standard h header param_data s.world
      (r.1, { s with world := r.2 })

/-- Modelled from the spec: `RDMResponder_DispatchPID` of rdm_responder.c,
which is not among the sources (spec section 4.2).  Lookup by parameter ID is
linear over the table.  For GET: no entry or no get-handler gives
NACK(unknown-PID); a request parameter-data length different from the
descriptor's declared one gives NACK(format-error); else the handler is
invoked.  SET is symmetric with the set-handler.  An entry with both handlers
absent gives NACK(unsupported-command-class); the spec is silent on command
classes other than GET and SET, which are answered the same way here. -/
def Spec_DispatchPID (p : Primitives W)
    (standard : PIDCommandHandler → RDMHeader → List Nat → W → Int × W)
    (table : List PIDDescriptor) (header : RDMHeader) (param_data : List Nat)
    (s : Firmware W) : Int × Firmware W :=
  match table.find? (fun d => d.pid == ntohs header.param_id) with
  | none => call_BuildNack p header NR_UNKNOWN_PID s
  | some d =>
    if d.get_handler.isNone ∧ d.set_handler.isNone then
      call_BuildNack p header NR_UNSUPPORTED_COMMAND_CLASS s
    else if header.command_class = GET_COMMAND then
      match d.get_handler with
      | none => call_BuildNack p header NR_UNKNOWN_PID s
      | some h =>
        if header.param_data_length ≠ d.get_param_size then
          call_BuildNack p header NR_FORMAT_ERROR s
        else invokeHandler p standard h header param_data s
    else if header.command_class = SET_COMMAND then
      match d.set_handler with
      | none => call_BuildNack p header NR_UNKNOWN_PID s
      | some h => invokeHandler p standard h header param_data s
    else
      call_BuildNack p header NR_UNSUPPORTED_COMMAND_CLASS s

end Table

/-! ## A concrete responder core

rdm_responder.c, rdm_util.c and coarse_timer.c are not among the sources.
The definitions of this section follow the spec's description of them and
give one concrete value of `Collaborators`, on which the model is evaluated
in the examples below.  No general theorem depends on them. -/

namespace Sample

/-- Modelled from the spec: the response result handed to the transceiver
(rdm_responder.c is absent): nothing yet, an RDM response frame, or the
fixed-format DUB reply of the responder with the given UID. -/
inductive Reply where
  | nothing
  | frame (bytes : List Nat)
  | dub (uid : List Nat)
deriving DecidableEq, Repr

/-- Modelled from the spec: the process-wide state of rdm_responder.c and
coarse_timer.c (both absent): the device UID, the discovery mute flag, the
last reply built and the coarse timer count. -/
structure Responder where
  uid : List Nat
  is_muted : Bool
  reply : Reply
  coarse_time : Nat
deriving DecidableEq, Repr

/-- Modelled from the spec: the broadcast UID, all six bytes 0xff (rdm_util.c
is absent). -/
def BROADCAST_UID : List Nat := [0xff, 0xff, 0xff, 0xff, 0xff, 0xff]

/-- Modelled from the spec: `RDMUtil_RequiresAction` of rdm_util.c (absent):
a request is addressed to this device when the destination UID matches self
or is the broadcast UID. -/
def RDMUtil_RequiresAction (our_uid uid : List Nat) : Bool :=
  uid == our_uid || uid == BROADCAST_UID

/-- The two bytes of a 16-bit header field as they lie in the frame. -/
def fieldBytes (x : Nat) : List Nat := [x % 256, x / 256 % 256]

/-- Modelled from the spec: the response encoder of rdm_responder.c (absent,
spec section 4.3): copies the addressing fields of the request, flips the
command class to its response variant, sets the response type, writes the
parameter-data length and the payload, and appends the two-byte additive
checksum of all preceding bytes modulo 2^16.  The result is the frame size. -/
def buildFrame (header : RDMHeader) (response_type : Nat) (data : List Nat)
    (w : Responder) : Int × Responder :=
  let body := [0xcc, 0x01, 24 + data.length] ++ header.src_uid ++ w.uid ++
    [header.transaction_number, response_type, 0] ++ fieldBytes header.sub_device ++
    [header.command_class + 1] ++ fieldBytes header.param_id ++ [data.length] ++ data
  let sum := body.sum % 65536
  let bytes := body ++ [sum / 256, sum % 256]
  ((bytes.length : Nat), { w with reply := Reply.frame bytes })

/-- Modelled from the spec: `RDMResponder_BuildNack` (absent): a NACK_REASON
frame whose payload is the 16-bit reason code. -/
def RDMResponder_BuildNack (header : RDMHeader) (reason : Nat) (w : Responder) :
    Int × Responder :=
  buildFrame header NACK_REASON [reason / 256 % 256, reason % 256] w

/-- Modelled from the spec: `RDMResponder_BuildSetAck` (absent): an ACK frame
without payload. -/
def RDMResponder_BuildSetAck (header : RDMHeader) (w : Responder) : Int × Responder :=
  buildFrame header ACK [] w

/-- Modelled from the spec: `RDMResponder_GenericGetBool` (absent): an ACK
with the one-byte value. -/
def RDMResponder_GenericGetBool (header : RDMHeader) (value : Bool) (w : Responder) :
    Int × Responder :=
  buildFrame header ACK [if value then 1 else 0] w

/-- Modelled from the spec: `RDMResponder_GenericSetBool` (absent): the
request-data length must equal the wire width 1, else NACK(format-error). -/
def RDMResponder_GenericSetBool (header : RDMHeader) (param_data : List Nat)
    (value : Bool) (w : Responder) : Int × Responder × Bool :=
  if header.param_data_length ≠ 1 then
    let r := RDMResponder_BuildNack header NR_FORMAT_ERROR w
    (r.1, r.2, value)
  else
    let r := RDMResponder_BuildSetAck header w
    (r.1, r.2, byteAt param_data 0 != 0)

/-- Modelled from the spec: `RDMResponder_GenericGetUInt8` (absent): an ACK
with the one-byte value. -/
def RDMResponder_GenericGetUInt8 (header : RDMHeader) (value : Nat) (w : Responder) :
    Int × Responder :=
  buildFrame header ACK [value % 256] w

/-- Modelled from the spec: `RDMResponder_GenericSetUInt8` (absent): the
request-data length must equal the wire width 1, else NACK(format-error). -/
def RDMResponder_GenericSetUInt8 (header : RDMHeader) (param_data : List Nat)
    (value : Nat) (w : Responder) : Int × Responder × Nat :=
  if header.param_data_length ≠ 1 then
    let r := RDMResponder_BuildNack header NR_FORMAT_ERROR w
    (r.1, r.2, value)
  else
    let r := RDMResponder_BuildSetAck header w
    (r.1, r.2, byteAt param_data 0)

/-- Modelled from the spec: `RDMResponder_GenericGetUInt32` (absent): an ACK
with the four-byte big-endian value. -/
def RDMResponder_GenericGetUInt32 (header : RDMHeader) (value : Nat) (w : Responder) :
    Int × Responder :=
  buildFrame header ACK
    [value / 16777216 % 256, value / 65536 % 256, value / 256 % 256, value % 256] w

/-- Modelled from the spec: `RDMResponder_GenericSetUInt32` (absent): the
request-data length must equal the wire width 4, else NACK(format-error). -/
def RDMResponder_GenericSetUInt32 (header : RDMHeader) (param_data : List Nat)
    (value : Nat) (w : Responder) : Int × Responder × Nat :=
  if header.param_data_length ≠ 4 then
    let r := RDMResponder_BuildNack header NR_FORMAT_ERROR w
    (r.1, r.2, value)
  else
    let r := RDMResponder_BuildSetAck header w
    (r.1, r.2, byteAt param_data 0 * 16777216 + byteAt param_data 1 * 65536 +
      byteAt param_data 2 * 256 + byteAt param_data 3)

/-- Modelled from the spec: the handlers of the standard PIDs (all in the
absent rdm_responder.c).  The spec gives their contract only (an ACK with a
serialised payload, or a NACK); the sample responder answers with an ACK
without payload. -/
def standardHandler (_h : PIDCommandHandler) (header : RDMHeader)
    (_param_data : List Nat) (w : Responder) : Int × Responder :=
  buildFrame header ACK [] w

/-- Modelled from the spec: the functions the PID handlers call. -/
def primitives : Primitives Responder where
  RDM_RESPONDER_NO_RESPONSE := 0
  RDMResponder_BuildNack := RDMResponder_BuildNack
  RDMResponder_BuildSetAck := RDMResponder_BuildSetAck
  RDMResponder_GenericGetBool := RDMResponder_GenericGetBool
  RDMResponder_GenericSetBool := RDMResponder_GenericSetBool
  RDMResponder_GenericGetUInt8 := RDMResponder_GenericGetUInt8
  RDMResponder_GenericSetUInt8 := RDMResponder_GenericSetUInt8
  RDMResponder_GenericGetUInt32 := RDMResponder_GenericGetUInt32
  RDMResponder_GenericSetUInt32 := RDMResponder_GenericSetUInt32
  CoarseTimer_GetTime := fun w => w.coarse_time
  CoarseTimer_HasElapsed := fun start interval w => decide (start + interval ≤ w.coarse_time)

/-- The numeric value of a UID, most significant byte first. -/
def uidValue (uid : List Nat) : Nat := uid.foldl (fun acc b => acc * 256 + b) 0

/-- Modelled from the spec: `RDMResponder_HandleDiscovery` of rdm_responder.c
(absent, spec section 4.1 step 1).  DUB: "respond only if not muted and the
destination UID is the broadcast discovery UID or within the bounds in the
request's parameter data (lower ≤ UID ≤ upper)", with the fixed-format
24-byte reply.  Mute / Un-Mute: if the destination UID matches self or the
broadcast UID, set the mute flag and return an ACK-style reply carrying the
capability flags (none for this device); otherwise no response. -/
def RDMResponder_HandleDiscovery (header : RDMHeader) (param_data : List Nat)
    (s : Firmware Responder) : Int × Firmware Responder :=
  let w := s.world
  let pid := ntohs header.param_id
  if pid = PID_DISC_UNIQUE_BRANCH then
    let lower := uidValue (param_data.take 6)
    let upper := uidValue ((param_data.drop 6).take 6)
    if w.is_muted = false ∧ (header.dest_uid = BROADCAST_UID ∨
        (lower ≤ uidValue w.uid ∧ uidValue w.uid ≤ upper)) then
      (24, { s with world := { w with reply := Reply.dub w.uid } })
    else (0, s)
  else if pid = PID_DISC_MUTE ∨ pid = PID_DISC_UN_MUTE then
    if header.dest_uid = w.uid ∨ header.dest_uid = BROADCAST_UID then
      let r := buildFrame header ACK [0, 0] { w with is_muted := decide (pid = PID_DISC_MUTE) }
      (r.1, { s with world := r.2 })
    else (0, s)
  else (0, s)

/-- Modelled from the spec: the responder core around the moving-light model:
the primitives above, the UID test, the discovery handler and the PID
dispatcher over the model's own table. -/
def collaborators : Collaborators Responder where
  toPrimitives := primitives
  g_responder_uid := fun w => w.uid
  RDMUtil_RequiresAction := RDMUtil_RequiresAction
  RDMResponder_HandleDiscovery := RDMResponder_HandleDiscovery
  RDMResponder_DispatchPID := Spec_DispatchPID primitives standardHandler PID_DESCRIPTORS

/-- A freshly initialised device with UID 7a70:00000001 at coarse time 0. -/
def initial : Firmware Responder :=
  { g_moving_light := MovingLightModel_Initialize
    world := { uid := [0x7a, 0x70, 0, 0, 0, 1], is_muted := false,
               reply := Reply.nothing, coarse_time := 0 }
    calls := [] }

/-- A request from controller 7a70:ffffff00 to the device of `initial`, for
the root device, with the given command class, parameter ID and parameter-data
length (the parameter ID in host order; the header stores it in network
order). -/
def request (command_class pid param_data_length : Nat) : RDMHeader :=
  { dest_uid := [0x7a, 0x70, 0, 0, 0, 1]
    src_uid := [0x7a, 0x70, 0xff, 0xff, 0xff, 0]
    transaction_number := 0
    port_id := 1
    message_count := 0
    sub_device := 0
    command_class := command_class
    param_id := ntohs pid
    param_data_length := param_data_length }

/-- The request of `request`, readdressed to another device, 7a70:00000002. -/
def requestElsewhere (command_class pid param_data_length : Nat) : RDMHeader :=
  { request command_class pid param_data_length with
      dest_uid := [0x7a, 0x70, 0, 0, 0, 2] }

/-- The request of `request`, for the given sub-device (host order). -/
def requestSub (sub_device command_class pid param_data_length : Nat) : RDMHeader :=
  { request command_class pid param_data_length with sub_device := ntohs sub_device }

/-- A Discovery-Unique-Branch request broadcast by the controller, carrying
the given sub-device (host order). -/
def dubRequest (sub_device : Nat) : RDMHeader :=
  { request DISCOVERY_COMMAND PID_DISC_UNIQUE_BRANCH 12 with
      dest_uid := BROADCAST_UID
      sub_device := ntohs sub_device }

/-- The parameter data of a DUB over the whole UID range: lower bound
0000:00000000, upper bound ffff:ffffffff. -/
def fullRange : List Nat := [0, 0, 0, 0, 0, 0, 0xff, 0xff, 0xff, 0xff, 0xff, 0xff]

end Sample

/-! ## Outcomes and runs -/

section Outcomes
variable {W : Type}

/-- The result `r` of a handler started in `s` is the NACK built by
`RDMResponder_BuildNack(header, reason)`: its return value and its effect on
the responder, exactly one call recorded, the model state untouched. -/
def IsNack (p : Primitives W) (header : RDMHeader) (reason : Nat) (s : Firmware W)
    (r : Int × Firmware W) : Prop :=
  r.1 = (p.RDMResponder_BuildNack header reason s.world).1 ∧
  r.2.world = (p.RDMResponder_BuildNack header reason s.world).2 ∧
  r.2.calls = s.calls ++ [Call.BuildNack header reason] ∧
  r.2.g_moving_light = s.g_moving_light

/-- The result `r` of a handler started in `s` is the set-ACK built by
`RDMResponder_BuildSetAck(header)`, exactly one call recorded, and the model
state is `g`. -/
def IsSetAck (p : Primitives W) (header : RDMHeader) (g : MovingLightModel)
    (s : Firmware W) (r : Int × Firmware W) : Prop :=
  r.1 = (p.RDMResponder_BuildSetAck header s.world).1 ∧
  r.2.world = (p.RDMResponder_BuildSetAck header s.world).2 ∧
  r.2.calls = s.calls ++ [Call.BuildSetAck header] ∧
  r.2.g_moving_light = g

/-- One step of the lamp's life: a SET lamp-state request reaching its
handler, or a scheduler pass running `MovingLightModel_Tasks`. -/
inductive LampEvent where
  | set (header : RDMHeader) (param_data : List Nat)
  | tasks
deriving DecidableEq, Repr

def lampStep (p : Primitives W) (s : Firmware W) : LampEvent → Firmware W
  | .set header param_data => (MovingLightModel_SetLampState p header param_data s).2
  | .tasks => MovingLightModel_Tasks p s

/-- The states a run passes through after each of its events, in order. -/
def lampTrace (p : Primitives W) (s : Firmware W) : List LampEvent → List (Firmware W)
  | [] => []
  | e :: es => lampStep p s e :: lampTrace p (lampStep p s e) es

end Outcomes

/-! ## The host message handler (message_handler.c)

The transport, the transceiver, the logger, the flags module and the
application reset live in other translation units that are not among the
sources.  Their functions are the parameters gathered in `HostCollaborators`,
acting on an abstract state `T`; every call the handler makes, every byte it
reads from a payload and every message it hands to the transport is recorded
in order. -/

/-- Modelled from the spec: the host command codes, the enum `Command` of
constants.h, which is not among the sources (spec section 6).  `other` stands
for any command code not in the set. -/
inductive Command where
  | ECHO
  | TX_DMX
  | GET_LOG
  | GET_FLAGS
  | WRITE_LOG
  | COMMAND_RESET_DEVICE
  | COMMAND_RDM_DUB_REQUEST
  | COMMAND_RDM_REQUEST
  | SET_BREAK_TIME
  | GET_BREAK_TIME
  | SET_MAB_TIME
  | GET_MAB_TIME
  | SET_RDM_BROADCAST_LISTEN
  | GET_RDM_BROADCAST_LISTEN
  | SET_RDM_WAIT_TIME
  | GET_RDM_WAIT_TIME
  | other (code : Nat)
deriving DecidableEq, Repr

/-- Modelled from the spec: the result codes of constants.h, which is not
among the sources (spec section 6). -/
inductive ReturnCode where
  | RC_OK
  | RC_BAD_PARAM
  | RC_BUFFER_FULL
  | RC_UNKNOWN
  | RC_RX_TIMEOUT
deriving DecidableEq, Repr

/-- Modelled from the spec: the operation types of transceiver.h, which is
not among the sources.  message_handler.c names two of them, the plain DMX
transmit and the DUB, and treats every other value as an RDM request. -/
inductive TransceiverOperation where
  | TRANSCEIVER_NO_RESPONSE
  | RDM_DUB
  | other (code : Nat)
deriving DecidableEq, Repr

/-- Modelled from the spec: the completion results of transceiver.h, which is
not among the sources.  message_handler.c names two of them, success and the
receive timeout; `other` stands for any other result value. -/
inductive TransceiverResult where
  | COMPLETED_OK
  | RX_TIMEOUT
  | other (code : Nat)
deriving DecidableEq, Repr

/-- Modelled from the spec: the `IOVec` of the transport interface (absent):
a buffer and the number of its bytes that are meant. -/
structure IOVec where
  base : List Nat
  length : Nat
deriving DecidableEq, Repr

/-- Modelled from the spec: the host `Message` of message_handler.h (absent):
a command code, a raw payload buffer and its length. -/
structure Message where
  command : Command
  payload : List Nat
  length : Nat
deriving DecidableEq, Repr

/-- What message_handler.c does to the outside, one entry per action: a
message handed to the transport (`SendMessage`; the IOVec array is empty for
`NULL, 0`), a payload byte read at an index, or a call of a collaborator with
its arguments. -/
inductive HostEvent where
  | SendMessage (command : Command) (rc : ReturnCode) (iov : List IOVec)
  | PayloadRead (index : Nat)
  | SysLog_Print (result : TransceiverResult) (length : Nat)
  | Logger_Write (payload : List Nat) (length : Nat)
  | Logger_Log (text : List Nat)
  | Logger_SendResponse
  | Flags_SendResponse
  | APP_Reset
  | Transceiver_QueueDMX (token : Nat) (payload : List Nat) (length : Nat)
  | Transceiver_QueueRDMDUB (token : Nat) (payload : List Nat) (length : Nat)
  | Transceiver_QueueRDMRequest (token : Nat) (payload : List Nat) (length : Nat)
  | Transceiver_SetBreakTime (value : Nat)
  | Transceiver_SetMarkTime (value : Nat)
  | Transceiver_SetRDMBroadcastListen (value : Nat)
  | Transceiver_SetRDMWaitTime (value : Nat)
  | Transceiver_GetBreakTime
  | Transceiver_GetMarkTime
  | Transceiver_GetRDMBroadcastListen
  | Transceiver_GetRDMWaitTime
deriving DecidableEq, Repr

/-- The state around the message handler: the state `env` of the other
modules and the record of what the handler has done so far. -/
structure Host (T : Type) where
  env : T
  events : List HostEvent
deriving DecidableEq, Repr

/-- The functions of transceiver.c, logger.c, flags.c, syslog.c and app.c that
message_handler.c calls. -/
structure HostCollaborators (T : Type) where
  Transceiver_QueueDMX : Nat → List Nat → Nat → T → Bool × T
  Transceiver_QueueRDMDUB : Nat → List Nat → Nat → T → Bool × T
  Transceiver_QueueRDMRequest : Nat → List Nat → Nat → T → Bool × T
  Transceiver_SetBreakTime : Nat → T → Bool × T
  Transceiver_GetBreakTime : T → Nat
  Transceiver_SetMarkTime : Nat → T → Bool × T
  Transceiver_GetMarkTime : T → Nat
  Transceiver_SetRDMBroadcastListen : Nat → T → Bool × T
  Transceiver_GetRDMBroadcastListen : T → Nat
  Transceiver_SetRDMWaitTime : Nat → T → Bool × T
  Transceiver_GetRDMWaitTime : T → Nat
  Logger_Write : List Nat → Nat → T → T
  Logger_Log : List Nat → T → T
  Logger_SendResponse : T → T
  Flags_SendResponse : T → T
  APP_Reset : T → T
  SysLog_Print : TransceiverResult → Nat → T → T

section MessageHandler
variable {T : Type}

/-- Append one entry to the record. -/
def Host.record (h : Host T) (e : HostEvent) : Host T :=
  { h with events := h.events ++ [e] }

/-- The static `SendMessage`: the message goes to the transport. -/
def SendMessage (command : Command) (rc : ReturnCode) (iov : List IOVec)
    (h : Host T) : Host T :=
  h.record (HostEvent.SendMessage command rc iov)

/-- The read `payload[index]`. -/
def readPayload (payload : List Nat) (index : Nat) (h : Host T) : Nat × Host T :=
  (byteAt payload index, h.record (HostEvent.PayloadRead index))

/-- A call of one of the three queueing functions or four setters: the
collaborator runs on `env` and the call is recorded. -/
def callBool (f : T → Bool × T) (e : HostEvent) (h : Host T) : Bool × Host T :=
  ((f h.env).1, { env := (f h.env).2, events := h.events ++ [e] })

/-- A call of a collaborator that returns nothing. -/
def callVoid (f : T → T) (e : HostEvent) (h : Host T) : Host T :=
  { env := f h.env, events := h.events ++ [e] }

/-- A call of one of the four getters. -/
def callGet (f : T → Nat) (e : HostEvent) (h : Host T) : Nat × Host T :=
  (f h.env, h.record e)

/-- The two bytes of a `uint16_t` local as they lie in memory on the
little-endian target, which is what the IOVec of a GET reply points at. -/
def uint16Bytes (v : Nat) : List Nat := [v % 256, v / 256 % 256]

def MessageHandler_Echo (message : Message) (h : Host T) : Host T :=
  SendMessage Command.ECHO ReturnCode.RC_OK [⟨message.payload, message.length⟩] h

/-- The read `message->payload[message->length - 1]` is made without a test of
the length, and `length` is unsigned: for length 0 the index is 4294967295.
When the index is not below the payload length the byte lies outside the
payload and the behaviour of the program is undefined from that read on; the
result is then `Except.error` with the state reached at the read.  Otherwise
the result is `Except.ok` with the state at the end of the function. -/
def MessageHandler_WriteLog (c : HostCollaborators T) (message : Message)
    (h : Host T) : Except (Host T) (Host T) :=
  let h1 := callVoid (c.Logger_Write message.payload message.length)
    (HostEvent.Logger_Write message.payload message.length) h
  let index := (message.length + 2 ^ 32 - 1) % 2 ^ 32
  let r := readPayload message.payload index h1
  if index < message.length then
    if r.1 ≠ 0 then
      Except.ok (callVoid (c.Logger_Log []) (HostEvent.Logger_Log []) r.2)
    else Except.ok r.2
  else Except.error r.2

def MessageHandler_SetBreakTime (c : HostCollaborators T) (payload : List Nat)
    (length : Nat) (h : Host T) : Host T :=
  if length ≠ 2 then
    SendMessage Command.SET_BREAK_TIME ReturnCode.RC_BAD_PARAM [] h
  else
    let b0 := readPayload payload 0 h
    let b1 := readPayload payload 1 b0.2
    let break_time := (b0.1 + b1.1 * 256) % 65536
    let ok := callBool (c.Transceiver_SetBreakTime break_time)
      (HostEvent.Transceiver_SetBreakTime break_time) b1.2
    SendMessage Command.SET_BREAK_TIME
      (if ok.1 then ReturnCode.RC_OK else ReturnCode.RC_BAD_PARAM) [] ok.2

def MessageHandler_ReturnBreakTime (c : HostCollaborators T) (h : Host T) : Host T :=
  let break_time := callGet c.Transceiver_GetBreakTime HostEvent.Transceiver_GetBreakTime h
  SendMessage Command.GET_BREAK_TIME ReturnCode.RC_OK
    [⟨uint16Bytes break_time.1, 2⟩] break_time.2

def MessageHandler_SetMarkTime (c : HostCollaborators T) (payload : List Nat)
    (length : Nat) (h : Host T) : Host T :=
  if length ≠ 2 then
    SendMessage Command.SET_MAB_TIME ReturnCode.RC_BAD_PARAM [] h
  else
    let b0 := readPayload payload 0 h
    let b1 := readPayload payload 1 b0.2
    let mark_time := (b0.1 + b1.1 * 256) % 65536
    let ok := callBool (c.Transceiver_SetMarkTime mark_time)
      (HostEvent.Transceiver_SetMarkTime mark_time) b1.2
    SendMessage Command.SET_MAB_TIME
      (if ok.1 then ReturnCode.RC_OK else ReturnCode.RC_BAD_PARAM) [] ok.2

def MessageHandler_ReturnMABTime (c : HostCollaborators T) (h : Host T) : Host T :=
  let mab_time := callGet c.Transceiver_GetMarkTime HostEvent.Transceiver_GetMarkTime h
  SendMessage Command.GET_MAB_TIME ReturnCode.RC_OK
    [⟨uint16Bytes mab_time.1, 2⟩] mab_time.2

def MessageHandler_SetRDMBroadcastListen (c : HostCollaborators T) (payload : List Nat)
    (length : Nat) (h : Host T) : Host T :=
  if length ≠ 2 then
    SendMessage Command.SET_RDM_BROADCAST_LISTEN ReturnCode.RC_BAD_PARAM [] h
  else
    let b0 := readPayload payload 0 h
    let b1 := readPayload payload 1 b0.2
    let time := (b0.1 + b1.1 * 256) % 65536
    let ok := callBool (c.Transceiver_SetRDMBroadcastListen time)
      (HostEvent.Transceiver_SetRDMBroadcastListen time) b1.2
    SendMessage Command.SET_RDM_BROADCAST_LISTEN
      (if ok.1 then ReturnCode.RC_OK else ReturnCode.RC_BAD_PARAM) [] ok.2

def MessageHandler_ReturnRDMBroadcastListen (c : HostCollaborators T) (h : Host T) :
    Host T :=
  let time := callGet c.Transceiver_GetRDMBroadcastListen
    HostEvent.Transceiver_GetRDMBroadcastListen h
  SendMessage Command.GET_RDM_BROADCAST_LISTEN ReturnCode.RC_OK
    [⟨uint16Bytes time.1, 2⟩] time.2

def MessageHandler_SetRDMWaitTime (c : HostCollaborators T) (payload : List Nat)
    (length : Nat) (h : Host T) : Host T :=
  if length ≠ 2 then
    SendMessage Command.SET_RDM_WAIT_TIME ReturnCode.RC_BAD_PARAM [] h
  else
    let b0 := readPayload payload 0 h
    let b1 := readPayload payload 1 b0.2
    let wait_time := (b0.1 + b1.1 * 256) % 65536
    let ok := callBool (c.Transceiver_SetRDMWaitTime wait_time)
      (HostEvent.Transceiver_SetRDMWaitTime wait_time) b1.2
    SendMessage Command.SET_RDM_WAIT_TIME
      (if ok.1 then ReturnCode.RC_OK else ReturnCode.RC_BAD_PARAM) [] ok.2

def MessageHandler_ReturnRDMWaitTime (c : HostCollaborators T) (h : Host T) : Host T :=
  let wait_time := callGet c.Transceiver_GetRDMWaitTime
    HostEvent.Transceiver_GetRDMWaitTime h
  SendMessage Command.GET_RDM_WAIT_TIME ReturnCode.RC_OK
    [⟨uint16Bytes wait_time.1, 2⟩] wait_time.2

/-- The switch of `MessageHandler_HandleMessage`.  Every case runs to its
end (`Except.ok`), except that WRITE_LOG inherits the undefined read of
`MessageHandler_WriteLog`, after which nothing more is known. -/
def MessageHandler_HandleMessage (c : HostCollaborators T) (message : Message)
    (h : Host T) : Except (Host T) (Host T) :=
  match message.command with
  | Command.ECHO => Except.ok (MessageHandler_Echo message h)
  | Command.TX_DMX =>
    let r := callBool (c.Transceiver_QueueDMX 0 message.payload message.length)
      (HostEvent.Transceiver_QueueDMX 0 message.payload message.length) h
    Except.ok
      (if !r.1 then SendMessage message.command ReturnCode.RC_BUFFER_FULL [] r.2 else r.2)
  | Command.GET_LOG =>
    Except.ok (callVoid c.Logger_SendResponse HostEvent.Logger_SendResponse h)
  | Command.GET_FLAGS =>
    Except.ok (callVoid c.Flags_SendResponse HostEvent.Flags_SendResponse h)
  | Command.WRITE_LOG =>
    match MessageHandler_WriteLog c message h with
    | Except.ok h1 => Except.ok (SendMessage Command.WRITE_LOG ReturnCode.RC_OK [] h1)
    | Except.error e => Except.error e
  | Command.COMMAND_RESET_DEVICE =>
    Except.ok (SendMessage message.command ReturnCode.RC_OK []
      (callVoid c.APP_Reset HostEvent.APP_Reset h))
  | Command.COMMAND_RDM_DUB_REQUEST =>
    let r := callBool (c.Transceiver_QueueRDMDUB 0 message.payload message.length)
      (HostEvent.Transceiver_QueueRDMDUB 0 message.payload message.length) h
    Except.ok
      (if !r.1 then SendMessage message.command ReturnCode.RC_BUFFER_FULL [] r.2 else r.2)
  | Command.COMMAND_RDM_REQUEST =>
    let r := callBool (c.Transceiver_QueueRDMRequest 0 message.payload message.length)
      (HostEvent.Transceiver_QueueRDMRequest 0 message.payload message.length) h
    Except.ok
      (if !r.1 then SendMessage message.command ReturnCode.RC_BUFFER_FULL [] r.2 else r.2)
  | Command.SET_BREAK_TIME =>
    Except.ok (MessageHandler_SetBreakTime c message.payload message.length h)
  | Command.GET_BREAK_TIME => Except.ok (MessageHandler_ReturnBreakTime c h)
  | Command.SET_MAB_TIME =>
    Except.ok (MessageHandler_SetMarkTime c message.payload message.length h)
  | Command.GET_MAB_TIME => Except.ok (MessageHandler_ReturnMABTime c h)
  | Command.SET_RDM_BROADCAST_LISTEN =>
    Except.ok (MessageHandler_SetRDMBroadcastListen c message.payload message.length h)
  | Command.GET_RDM_BROADCAST_LISTEN =>
    Except.ok (MessageHandler_ReturnRDMBroadcastListen c h)
  | Command.SET_RDM_WAIT_TIME =>
    Except.ok (MessageHandler_SetRDMWaitTime c message.payload message.length h)
  | Command.GET_RDM_WAIT_TIME => Except.ok (MessageHandler_ReturnRDMWaitTime c h)
  | Command.other _ =>
    Except.ok (SendMessage message.command ReturnCode.RC_UNKNOWN [] h)

/-- The state a handler reached: at its end, or at the read after which the
behaviour of the program is undefined. -/
def reached : Except (Host T) (Host T) → Host T
  | Except.ok h => h
  | Except.error h => h

def MessageHandler_TransceiverEvent (c : HostCollaborators T) (_token : Nat)
    (type : TransceiverOperation) (result : TransceiverResult) (data : List Nat)
    (length : Nat) (h : Host T) : Host T :=
  let h1 := callVoid (c.SysLog_Print result length) (HostEvent.SysLog_Print result length) h
  let iovec : IOVec := ⟨data, length⟩
  if type = TransceiverOperation.TRANSCEIVER_NO_RESPONSE then
    SendMessage Command.TX_DMX
      (if result = TransceiverResult.COMPLETED_OK then ReturnCode.RC_OK
       else ReturnCode.RC_UNKNOWN) [iovec] h1
  else if type = TransceiverOperation.RDM_DUB then
    SendMessage Command.COMMAND_RDM_DUB_REQUEST
      (if result = TransceiverResult.COMPLETED_OK then ReturnCode.RC_OK
       else ReturnCode.RC_UNKNOWN) [iovec] h1
  else
    let rc := if result = TransceiverResult.RX_TIMEOUT then ReturnCode.RC_RX_TIMEOUT
      else ReturnCode.RC_OK
    SendMessage Command.COMMAND_RDM_REQUEST rc [iovec] h1

/-- The messages handed to the transport, in order. -/
def sentMessages : List HostEvent → List (Command × ReturnCode × List IOVec)
  | [] => []
  | HostEvent.SendMessage command rc iov :: es => (command, rc, iov) :: sentMessages es
  | _ :: es => sentMessages es

end MessageHandler

/-! ## Vocabulary for the SET / GET pairs of the model -/

/-- The 32-bit counters of the model that have both a get and a set entry in
`PID_DESCRIPTORS`. -/
inductive UInt32Field where
  | device_hours
  | lamp_hours
  | lamp_strikes
  | device_power_cycles
deriving DecidableEq, Repr

def UInt32Field.pid : UInt32Field → Nat
  | .device_hours => PID_DEVICE_HOURS
  | .lamp_hours => PID_LAMP_HOURS
  | .lamp_strikes => PID_LAMP_STRIKES
  | .device_power_cycles => PID_DEVICE_POWER_CYCLES

def UInt32Field.read : UInt32Field → MovingLightModel → Nat
  | .device_hours, g => g.device_hours
  | .lamp_hours, g => g.lamp_hours
  | .lamp_strikes, g => g.lamp_strikes
  | .device_power_cycles, g => g.device_power_cycles

def UInt32Field.write : UInt32Field → MovingLightModel → Nat → MovingLightModel
  | .device_hours, g, v => { g with device_hours := v }
  | .lamp_hours, g, v => { g with lamp_hours := v }
  | .lamp_strikes, g, v => { g with lamp_strikes := v }
  | .device_power_cycles, g, v => { g with device_power_cycles := v }

/-- The boolean settings of the model. -/
inductive BoolField where
  | pan_invert
  | tilt_invert
  | pan_tilt_swap
deriving DecidableEq, Repr

def BoolField.pid : BoolField → Nat
  | .pan_invert => PID_PAN_INVERT
  | .tilt_invert => PID_TILT_INVERT
  | .pan_tilt_swap => PID_PAN_TILT_SWAP

def BoolField.read : BoolField → MovingLightModel → Bool
  | .pan_invert, g => g.pan_invert
  | .tilt_invert, g => g.tilt_invert
  | .pan_tilt_swap, g => g.pan_tilt_swap

def BoolField.write : BoolField → MovingLightModel → Bool → MovingLightModel
  | .pan_invert, g, v => { g with pan_invert := v }
  | .tilt_invert, g, v => { g with tilt_invert := v }
  | .pan_tilt_swap, g, v => { g with pan_tilt_swap := v }

/-- The enumerated one-byte settings with a setter of their own, other than
the lamp state. -/
inductive EnumField where
  | lamp_on_mode
  | display_invert
  | power_state
deriving DecidableEq, Repr

def EnumField.pid : EnumField → Nat
  | .lamp_on_mode => PID_LAMP_ON_MODE
  | .display_invert => PID_DISPLAY_INVERT
  | .power_state => PID_POWER_STATE

/-- The largest value the setter of the field accepts. -/
def EnumField.bound : EnumField → Nat
  | .lamp_on_mode => LAMP_ON_MODE_ON_AFTER_CAL
  | .display_invert => DISPLAY_INVERT_AUTO
  | .power_state => POWER_STATE_NORMAL

def EnumField.read : EnumField → MovingLightModel → Nat
  | .lamp_on_mode, g => g.lamp_on_mode
  | .display_invert, g => g.display_invert
  | .power_state, g => g.power_state

def EnumField.write : EnumField → MovingLightModel → Nat → MovingLightModel
  | .lamp_on_mode, g, v => { g with lamp_on_mode := v }
  | .display_invert, g, v => { g with display_invert := v }
  | .power_state, g, v => { g with power_state := v }

/-- The set handler of the field in `PID_DESCRIPTORS`, as a table value. -/
def EnumField.setHandler : EnumField → PIDCommandHandler
  | .lamp_on_mode => .MovingLightModel_SetLampOnMode
  | .display_invert => .MovingLightModel_SetDisplayInvert
  | .power_state => .MovingLightModel_SetPowerState

/-- The set handler of the field, as the function of moving_light.c. -/
def EnumField.set {W : Type} (f : EnumField) (p : Primitives W) :
    RDMHeader → List Nat → Firmware W → Int × Firmware W :=
  match f with
  | .lamp_on_mode => MovingLightModel_SetLampOnMode p
  | .display_invert => MovingLightModel_SetDisplayInvert p
  | .power_state => MovingLightModel_SetPowerState p

/-- The get and set handlers that `PID_DESCRIPTORS` holds for a PID (the
first entry with that PID, as a linear lookup finds it). -/
def tableHandlers (pid : Nat) : Option (Option PIDCommandHandler × Option PIDCommandHandler) :=
  (PID_DESCRIPTORS.find? (fun d => d.pid == pid)).map
    (fun d => (d.get_handler, d.set_handler))

namespace Sample

/-- Modelled from the spec: the response type and the parameter data of a
response frame, read back at the offsets of the frame layout (response type at
16, parameter-data length at 23, parameter data from 24). -/
def replyData : Reply → Option (Nat × List Nat)
  | Reply.frame bytes => some (bytes.getD 16 0, (bytes.drop 24).take (bytes.getD 23 0))
  | _ => none

/-- Modelled from the spec: the state behind the message handler (the
transceiver queue, the logger and the application are all absent): whether a
bus transaction is in flight, the four timing parameters with the range of
values the transceiver takes, the log and the number of resets. -/
structure Bus where
  busy : Bool
  break_time : Nat
  mark_time : Nat
  rdm_broadcast_listen : Nat
  rdm_wait_time : Nat
  lowest_time : Nat
  highest_time : Nat
  log : List Nat
  resets : Nat
deriving DecidableEq, Repr

/-- Modelled from the spec: queueing a job on the transceiver (absent): "at
most one bus transaction is in flight at a time — a second job submitted while
one is outstanding is rejected synchronously". -/
def queueJob (t : Bus) : Bool × Bus :=
  if t.busy then (false, t) else (true, { t with busy := true })

/-- Modelled from the spec: a timing setter of the transceiver (absent).  The
spec says that the transceiver may reject a value but not which ones; the
sample takes the values between the two bounds it holds. -/
def setTime (store : Bus → Nat → Bus) (value : Nat) (t : Bus) : Bool × Bus :=
  if t.lowest_time ≤ value ∧ value ≤ t.highest_time then (true, store t value)
  else (false, t)

/-- Modelled from the spec: the modules around the message handler. -/
def host : HostCollaborators Bus where
  Transceiver_QueueDMX := fun _ _ _ t => queueJob t
  Transceiver_QueueRDMDUB := fun _ _ _ t => queueJob t
  Transceiver_QueueRDMRequest := fun _ _ _ t => queueJob t
  Transceiver_SetBreakTime := setTime (fun t v => { t with break_time := v })
  Transceiver_GetBreakTime := fun t => t.break_time
  Transceiver_SetMarkTime := setTime (fun t v => { t with mark_time := v })
  Transceiver_GetMarkTime := fun t => t.mark_time
  Transceiver_SetRDMBroadcastListen :=
    setTime (fun t v => { t with rdm_broadcast_listen := v })
  Transceiver_GetRDMBroadcastListen := fun t => t.rdm_broadcast_listen
  Transceiver_SetRDMWaitTime := setTime (fun t v => { t with rdm_wait_time := v })
  Transceiver_GetRDMWaitTime := fun t => t.rdm_wait_time
  Logger_Write := fun payload length t => { t with log := t.log ++ payload.take length }
  Logger_Log := fun text t => { t with log := t.log ++ text ++ [0] }
  Logger_SendResponse := fun t => t
  Flags_SendResponse := fun t => t
  APP_Reset := fun t => { t with resets := t.resets + 1 }
  SysLog_Print := fun _ _ t => t

/-- An idle host side: nothing in flight, nothing recorded. -/
def idle : Host Bus :=
  { env := { busy := false, break_time := 176, mark_time := 12,
             rdm_broadcast_listen := 0, rdm_wait_time := 28,
             lowest_time := 4, highest_time := 1000, log := [], resets := 0 }
    events := [] }

/-- The device of `initial` with the lamp striking since coarse time 0, seen at
the given coarse time. -/
def striking (coarse_time : Nat) : Firmware Responder :=
  { initial with
      g_moving_light := { initial.g_moving_light with lamp_state := LAMP_STRIKE }
      world := { initial.world with coarse_time := coarse_time } }

/-- The host side with a bus transaction in flight. -/
def inFlight : Host Bus := { idle with env := { idle.env with busy := true } }

end Sample

/-! ## Frame-layout and catalogue constants of rdm.h -/

def RDM_CHECKSUM_LENGTH : Nat := 2
def MESSAGE_LENGTH_OFFSET : Nat := 2
def RDM_PARAM_DATA_LENGTH_OFFSET : Nat := 23
def RDM_PARAM_DATA_OFFSET : Nat := 24
def DUB_RESPONSE_LENGTH : Nat := 24
def RDM_MAX_FRAME_SIZE : Nat := 257
def MAX_PARAM_DATA_SIZE : Nat := 231

def PRODUCT_CATEGORY_TEST_EQUIPMENT : Nat := 0x7101
def PRODUCT_DETAIL_LED : Nat := 0x0004
def PRODUCT_DETAIL_CHANGEOVER_MANUAL : Nat := 0x0900
def PRODUCT_DETAIL_TEST : Nat := 0x0902

def ST_PRIMARY : Nat := 0x00
def ST_SEC_FINE : Nat := 0x01
def SD_INTENSITY : Nat := 0x0001
def SD_PAN : Nat := 0x0101
def SD_TILT : Nat := 0x0102
def SD_COLOR_WHEEL : Nat := 0x0201

/-! ## The responder definition of moving_light.c -/

def SOFTWARE_VERSION : Nat := 0x00000000
def PERSONALITY_COUNT : Nat := 2

def DEVICE_MODEL_DESCRIPTION : String := "Ja Rule Moving Light"
def SOFTWARE_LABEL : String := "Alpha"
def DEFAULT_DEVICE_LABEL : String := "Default Label"
def PERSONALITY_DESCRIPTION1 : String := "8-bit mode"
def PERSONALITY_DESCRIPTION2 : String := "16-bit mode"

/-- Modelled from the spec: the slot definition of rdm_responder.h (absent),
with the fields the initialisers of moving_light.c name. -/
structure SlotDefinition where
  description : String
  slot_label_id : Nat
  slot_type : Nat
  default_value : Nat
deriving DecidableEq, Repr

/-- Modelled from the spec: the personality definition of rdm_responder.h
(absent): a DMX footprint, a description and an array of slot definitions with
its count. -/
structure PersonalityDefinition where
  dmx_footprint : Nat
  description : String
  slots : List SlotDefinition
  slot_count : Nat
deriving DecidableEq, Repr

/-- Modelled from the spec: the product detail list of rdm_responder.h
(absent): the ids and how many of them are set. -/
structure ProductDetailIds where
  ids : List Nat
  size : Nat
deriving DecidableEq, Repr

/-- Modelled from the spec: the responder definition of rdm_responder.h
(absent), with the fields the initialiser of moving_light.c names; the NULL
sensor array is the empty list. -/
structure ResponderDefinition where
  descriptors : List PIDDescriptor
  descriptor_count : Nat
  sensors : List Nat
  sensor_count : Nat
  personalities : List PersonalityDefinition
  personality_count : Nat
  software_version_label : String
  manufacturer_label : String
  model_description : String
  product_detail_ids : ProductDetailIds
  default_device_label : String
  software_version : Nat
  model_id : Nat
  product_category : Nat
deriving DecidableEq, Repr

/-- The two constants of constants.h (absent) that the responder definition
uses. -/
structure Constants where
  MANUFACTURER_LABEL : String
  MOVING_LIGHT_MODEL_ID : Nat
deriving DecidableEq, Repr

def PRODUCT_DETAIL_ID_LIST : ProductDetailIds :=
  { ids := [PRODUCT_DETAIL_TEST, PRODUCT_DETAIL_CHANGEOVER_MANUAL, PRODUCT_DETAIL_LED]
    size := 3 }

def SLOT_DIMMER_DESCRIPTION : String := "Dimmer"
def SLOT_PAN_DESCRIPTION : String := "Pan"
def SLOT_PAN_FINE_DESCRIPTION : String := "Pan (Fine)"
def SLOT_TILT_DESCRIPTION : String := "Tilt"
def SLOT_TILT_FINE_DESCRIPTION : String := "Tilt (Fine)"
def SLOT_COLOR_DESCRIPTION : String := "Color Wheel"

def PERSONALITY_SLOTS1 : List SlotDefinition :=
  [ { description := SLOT_DIMMER_DESCRIPTION, slot_label_id := SD_INTENSITY,
      slot_type := ST_PRIMARY, default_value := 0 },
    { description := SLOT_PAN_DESCRIPTION, slot_label_id := SD_PAN,
      slot_type := ST_PRIMARY, default_value := 0 },
    { description := SLOT_TILT_DESCRIPTION, slot_label_id := SD_TILT,
      slot_type := ST_PRIMARY, default_value := 0 },
    { description := SLOT_COLOR_DESCRIPTION, slot_label_id := SD_COLOR_WHEEL,
      slot_type := ST_PRIMARY, default_value := 0 } ]

def PERSONALITY_SLOTS2 : List SlotDefinition :=
  [ { description := SLOT_DIMMER_DESCRIPTION, slot_label_id := SD_INTENSITY,
      slot_type := ST_PRIMARY, default_value := 0 },
    { description := SLOT_PAN_DESCRIPTION, slot_label_id := SD_PAN,
      slot_type := ST_PRIMARY, default_value := 0 },
    { description := SLOT_PAN_FINE_DESCRIPTION, slot_label_id := 1,
      slot_type := ST_SEC_FINE, default_value := 0 },
    { description := SLOT_TILT_DESCRIPTION, slot_label_id := SD_TILT,
      slot_type := ST_PRIMARY, default_value := 0 },
    { description := SLOT_TILT_FINE_DESCRIPTION, slot_label_id := 3,
      slot_type := ST_SEC_FINE, default_value := 0 },
    { description := SLOT_COLOR_DESCRIPTION, slot_label_id := SD_COLOR_WHEEL,
      slot_type := ST_PRIMARY, default_value := 0 } ]

def PERSONALITIES : List PersonalityDefinition :=
  [ { dmx_footprint := 4, description := PERSONALITY_DESCRIPTION1,
      slots := PERSONALITY_SLOTS1, slot_count := 4 },
    { dmx_footprint := 6, description := PERSONALITY_DESCRIPTION2,
      slots := PERSONALITY_SLOTS2, slot_count := 6 } ]

/-- The `RESPONDER_DEFINITION` of moving_light.c; `descriptor_count` is
`sizeof(PID_DESCRIPTORS) / sizeof(PIDDescriptor)`, the number of initialisers
of the array. -/
def RESPONDER_DEFINITION (k : Constants) : ResponderDefinition :=
  { descriptors := PID_DESCRIPTORS
    descriptor_count := PID_DESCRIPTORS.length
    sensors := []
    sensor_count := 0
    personalities := PERSONALITIES
    personality_count := PERSONALITY_COUNT
    software_version_label := SOFTWARE_LABEL
    manufacturer_label := k.MANUFACTURER_LABEL
    model_description := DEVICE_MODEL_DESCRIPTION
    product_detail_ids := PRODUCT_DETAIL_ID_LIST
    default_device_label := DEFAULT_DEVICE_LABEL
    software_version := SOFTWARE_VERSION
    model_id := k.MOVING_LIGHT_MODEL_ID
    product_category := PRODUCT_CATEGORY_TEST_EQUIPMENT }

/-! ## Lifecycle hooks of moving_light.c -/

/-- Modelled from the spec: the ioctl commands of the model interface
(absent): UID retrieval, and `other` for any other command value. -/
inductive ModelIoctl where
  | IOCTL_GET_UID
  | other (code : Nat)
deriving DecidableEq, Repr

/-- What the lifecycle hooks use of rdm_responder.c (absent):
`RDMResponder_GetUID`, which fills the caller's buffer from the responder
state, `RDMResponder_ResetToFactoryDefaults`, and the store to the field
`g_responder.def`.  None of them can name the file-static `g_moving_light`. -/
structure ResponderAccess (W : Type) where
  RDMResponder_GetUID : List Nat → W → List Nat
  RDMResponder_ResetToFactoryDefaults : W → W
  store_g_responder_def : ResponderDefinition → W → W

section Lifecycle
variable {W : Type}

def MovingLightModel_Activate (a : ResponderAccess W) (k : Constants)
    (s : Firmware W) : Firmware W :=
  { s with
      world := a.RDMResponder_ResetToFactoryDefaults
        (a.store_g_responder_def (RESPONDER_DEFINITION k) s.world)
      calls := s.calls ++ [Call.ResetToFactoryDefaults] }

def MovingLightModel_Deactivate (s : Firmware W) : Firmware W := s

/-- The ioctl hook: the return value, the caller's buffer after the call, and
the program state. -/
def MovingLightModel_Ioctl (a : ResponderAccess W) (command : ModelIoctl)
    (data : List Nat) (length : Nat) (s : Firmware W) : Int × List Nat × Firmware W :=
  match command with
  | ModelIoctl.IOCTL_GET_UID =>
    if length ≠ UID_LENGTH then (0, data, s)
    else (1, a.RDMResponder_GetUID data s.world,
          { s with calls := s.calls ++ [Call.GetUID] })
  | ModelIoctl.other _ => (0, data, s)

end Lifecycle

/-- The new messages of `after` with respect to `before`: what was handed to
the transport after the first `before.length` recorded entries. -/
def sentSince (before after : List HostEvent) : List (Command × ReturnCode × List IOVec) :=
  sentMessages (after.drop before.length)

namespace Sample

/-- Modelled from the spec: the responder state together with the definition
installed as current (`g_responder.def`). -/
structure Installed where
  responder : Responder
  current : Option ResponderDefinition
deriving DecidableEq, Repr

/-- Modelled from the spec: the lifecycle side of rdm_responder.c (absent):
the UID retrieval copies the six UID bytes to the start of the buffer, and the
factory reset returns the responder's volatile state (the mute flag, the last
reply) to its defaults, keeping the UID and the installed definition. -/
def access : ResponderAccess Installed where
  RDMResponder_GetUID := fun data w => w.responder.uid ++ data.drop UID_LENGTH
  RDMResponder_ResetToFactoryDefaults := fun w =>
    { w with responder := { w.responder with is_muted := false, reply := Reply.nothing } }
  store_g_responder_def := fun definition w => { w with current := some definition }

/-- Sample values for the two constants of constants.h. -/
def constants : Constants :=
  { MANUFACTURER_LABEL := "Open Lighting Project", MOVING_LIGHT_MODEL_ID := 0x0102 }

/-- A device that has been in use: the lamp is on, two strikes counted, muted,
and no definition installed yet. -/
def used : Firmware Installed :=
  { g_moving_light :=
      { MovingLightModel_Initialize with lamp_state := LAMP_ON, lamp_strikes := 2 }
    world := { responder := { initial.world with is_muted := true }, current := none }
    calls := [] }

end Sample

/-! ## Vocabulary for the state invariant and the handler switches -/

/-- The invariant of the model state: the lamp state is one of the three
values the setter takes, and the lamp-on mode and the display-invert mode are
within their enumerations. -/
def StateInvariant (g : MovingLightModel) : Prop :=
  (g.lamp_state = LAMP_OFF ∨ g.lamp_state = LAMP_ON ∨ g.lamp_state = LAMP_STRIKE) ∧
  g.lamp_on_mode ≤ LAMP_ON_MODE_ON_AFTER_CAL ∧
  g.display_invert ≤ DISPLAY_INVERT_AUTO

/-- The case labels of the `switch` of each typed handler of moving_light.c,
in source order; the other handlers have no switch. -/
def switchCases : PIDCommandHandler → List Nat
  | .MovingLightModel_GetBool => [PID_PAN_INVERT, PID_TILT_INVERT, PID_PAN_TILT_SWAP]
  | .MovingLightModel_SetBool => [PID_PAN_INVERT, PID_TILT_INVERT, PID_PAN_TILT_SWAP]
  | .MovingLightModel_GetUInt8 =>
    [PID_LAMP_STATE, PID_LAMP_ON_MODE, PID_DISPLAY_INVERT, PID_DISPLAY_LEVEL, PID_POWER_STATE]
  | .MovingLightModel_SetUInt8 => [PID_DISPLAY_LEVEL]
  | .MovingLightModel_GetUInt32 =>
    [PID_DEVICE_HOURS, PID_LAMP_HOURS, PID_LAMP_STRIKES, PID_DEVICE_POWER_CYCLES]
  | .MovingLightModel_SetUInt32 =>
    [PID_DEVICE_HOURS, PID_LAMP_HOURS, PID_LAMP_STRIKES, PID_DEVICE_POWER_CYCLES]
  | _ => []

/-- The typed handlers of the model: those that select the field by the PID of
the request. -/
def typedHandlers : List PIDCommandHandler :=
  [.MovingLightModel_GetBool, .MovingLightModel_SetBool, .MovingLightModel_GetUInt8,
   .MovingLightModel_SetUInt8, .MovingLightModel_GetUInt32, .MovingLightModel_SetUInt32]

/-! ## Request handling: addressing, sub-device validation, routing -/

section RequestTheorems
variable {W : Type}

/-- C1: a request for which `RDMUtil_RequiresAction(own UID, dest_uid)` is
false gets `RDM_RESPONDER_NO_RESPONSE`, whatever its command class, sub-device
and PID; the whole program state is returned unchanged, so the model state is
untouched and no call (discovery handler, PID dispatcher or any other) is
recorded. -/
theorem HandleRequest_not_addressed (c : Collaborators W) (header : RDMHeader)
    (param_data : List Nat) (s : Firmware W)
    (h : c.RDMUtil_RequiresAction (c.g_responder_uid s.world) header.dest_uid = false) :
    MovingLightModel_HandleRequest c header param_data s
      = (c.RDM_RESPONDER_NO_RESPONSE, s) := by
  simp [MovingLightModel_HandleRequest, h]

/-- C2: a request that requires action and whose sub-device, converted from
network order, is neither SUBDEVICE_ROOT nor SUBDEVICE_ALL gets the NACK built
with NR_SUB_DEVICE_OUT_OF_RANGE; that is the only call made (no discovery, no
PID dispatch) and the model state is unchanged. -/
theorem HandleRequest_sub_device_out_of_range (c : Collaborators W)
    (header : RDMHeader) (param_data : List Nat) (s : Firmware W)
    (h : c.RDMUtil_RequiresAction (c.g_responder_uid s.world) header.dest_uid = true)
    (hroot : ntohs header.sub_device ≠ SUBDEVICE_ROOT)
    (hall : ntohs header.sub_device ≠ SUBDEVICE_ALL) :
    IsNack c.toPrimitives header NR_SUB_DEVICE_OUT_OF_RANGE s
      (MovingLightModel_HandleRequest c header param_data s) := by
  simp [MovingLightModel_HandleRequest, h, hroot, hall, IsNack, call_BuildNack]

/-- C3: a GET_COMMAND that requires action and addresses SUBDEVICE_ALL gets
the NACK built with NR_SUB_DEVICE_OUT_OF_RANGE, whatever the PID; that is the
only call made, so the PID dispatcher is never reached. -/
theorem HandleRequest_get_all_sub_devices (c : Collaborators W)
    (header : RDMHeader) (param_data : List Nat) (s : Firmware W)
    (h : c.RDMUtil_RequiresAction (c.g_responder_uid s.world) header.dest_uid = true)
    (hclass : header.command_class = GET_COMMAND)
    (hall : ntohs header.sub_device = SUBDEVICE_ALL) :
    IsNack c.toPrimitives header NR_SUB_DEVICE_OUT_OF_RANGE s
      (MovingLightModel_HandleRequest c header param_data s) := by
  simp [MovingLightModel_HandleRequest, h, hclass, hall, IsNack, call_BuildNack,
    GET_COMMAND, DISCOVERY_COMMAND, SUBDEVICE_ALL, SUBDEVICE_ROOT]

/-- C4: a request that requires action, is not a DISCOVERY_COMMAND, and has
sub-device SUBDEVICE_ROOT, or SUBDEVICE_ALL with a class other than
GET_COMMAND, returns exactly what `RDMResponder_DispatchPID(header,
param_data)` returns, run on the unchanged state (with the call recorded). -/
theorem HandleRequest_dispatches (c : Collaborators W)
    (header : RDMHeader) (param_data : List Nat) (s : Firmware W)
    (h : c.RDMUtil_RequiresAction (c.g_responder_uid s.world) header.dest_uid = true)
    (hclass : header.command_class ≠ DISCOVERY_COMMAND)
    (hsub : ntohs header.sub_device = SUBDEVICE_ROOT ∨
      (ntohs header.sub_device = SUBDEVICE_ALL ∧ header.command_class ≠ GET_COMMAND)) :
    MovingLightModel_HandleRequest c header param_data s
      = c.RDMResponder_DispatchPID header param_data
          { s with calls := s.calls ++ [Call.DispatchPID header param_data] } := by
  rcases hsub with hroot | ⟨hall, hget⟩
  · simp [MovingLightModel_HandleRequest, h, hclass, hroot, call_DispatchPID,
      SUBDEVICE_ALL, SUBDEVICE_ROOT]
  · simp [MovingLightModel_HandleRequest, h, hclass, hall, hget, call_DispatchPID]

/-- C5 (as amended): for a DISCOVERY_COMMAND that requires action, the
sub-device check comes first: with sub-device SUBDEVICE_ROOT or SUBDEVICE_ALL
the result is exactly what `RDMResponder_HandleDiscovery(header, param_data)`
returns on the unchanged state; with any other sub-device the result is the
NACK built with NR_SUB_DEVICE_OUT_OF_RANGE and the discovery handler is not
called. -/
theorem HandleRequest_discovery (c : Collaborators W)
    (header : RDMHeader) (param_data : List Nat) (s : Firmware W)
    (h : c.RDMUtil_RequiresAction (c.g_responder_uid s.world) header.dest_uid = true)
    (hclass : header.command_class = DISCOVERY_COMMAND) :
    ((ntohs header.sub_device = SUBDEVICE_ROOT ∨ ntohs header.sub_device = SUBDEVICE_ALL) →
      MovingLightModel_HandleRequest c header param_data s
        = c.RDMResponder_HandleDiscovery header param_data
            { s with calls := s.calls ++ [Call.HandleDiscovery header param_data] }) ∧
    ((ntohs header.sub_device ≠ SUBDEVICE_ROOT ∧ ntohs header.sub_device ≠ SUBDEVICE_ALL) →
      IsNack c.toPrimitives header NR_SUB_DEVICE_OUT_OF_RANGE s
        (MovingLightModel_HandleRequest c header param_data s)) := by
  constructor
  · rintro (hroot | hall)
    · simp [MovingLightModel_HandleRequest, h, hclass, hroot, call_HandleDiscovery,
        SUBDEVICE_ALL, SUBDEVICE_ROOT]
    · simp [MovingLightModel_HandleRequest, h, hclass, hall, call_HandleDiscovery]
  · rintro ⟨hroot, hall⟩
    simp [MovingLightModel_HandleRequest, h, hroot, hall, IsNack, call_BuildNack]

end RequestTheorems

/-! ## The enumerated-value setters -/

section SetterTheorems
variable {W : Type}

/-- C6: when `param_data_length` is not 1, each of SetLampState,
SetLampOnMode, SetDisplayInvert and SetPowerState returns the NACK built with
NR_FORMAT_ERROR and leaves the whole model state (lamp_strikes and
lamp_strike_time included) unchanged; the outcome is the same for every
`param_data`, which is therefore not read. -/
theorem enumerated_setters_format_error (p : Primitives W) (header : RDMHeader)
    (param_data : List Nat) (s : Firmware W) (h : header.param_data_length ≠ 1) :
    IsNack p header NR_FORMAT_ERROR s (MovingLightModel_SetLampState p header param_data s) ∧
    IsNack p header NR_FORMAT_ERROR s (MovingLightModel_SetLampOnMode p header param_data s) ∧
    IsNack p header NR_FORMAT_ERROR s
      (MovingLightModel_SetDisplayInvert p header param_data s) ∧
    IsNack p header NR_FORMAT_ERROR s
      (MovingLightModel_SetPowerState p header param_data s) := by
  simp [MovingLightModel_SetLampState, MovingLightModel_SetLampOnMode,
    MovingLightModel_SetDisplayInvert, MovingLightModel_SetPowerState, h, IsNack,
    call_BuildNack]

/-- C7: for a one-byte payload `[v]`: SetLampState with v > LAMP_STRIKE,
SetLampOnMode with v > LAMP_ON_MODE_ON_AFTER_CAL and SetDisplayInvert with
v > DISPLAY_INVERT_AUTO return the NACK built with NR_DATA_OUT_OF_RANGE and
leave the model state unchanged; at or below the bound the set-ACK is returned
and v is stored in lamp_state, lamp_on_mode and display_invert respectively
(for the last two no other field changes). -/
theorem enumerated_setters_range (p : Primitives W) (header : RDMHeader)
    (v : Nat) (s : Firmware W) (hlen : header.param_data_length = 1) (hv : v < 256) :
    (LAMP_STRIKE < v →
      IsNack p header NR_DATA_OUT_OF_RANGE s
        (MovingLightModel_SetLampState p header [v] s)) ∧
    (v ≤ LAMP_STRIKE →
      IsSetAck p header (MovingLightModel_SetLampState p header [v] s).2.g_moving_light s
        (MovingLightModel_SetLampState p header [v] s) ∧
      (MovingLightModel_SetLampState p header [v] s).2.g_moving_light.lamp_state = v) ∧
    (LAMP_ON_MODE_ON_AFTER_CAL < v →
      IsNack p header NR_DATA_OUT_OF_RANGE s
        (MovingLightModel_SetLampOnMode p header [v] s)) ∧
    (v ≤ LAMP_ON_MODE_ON_AFTER_CAL →
      IsSetAck p header { s.g_moving_light with lamp_on_mode := v } s
        (MovingLightModel_SetLampOnMode p header [v] s)) ∧
    (DISPLAY_INVERT_AUTO < v →
      IsNack p header NR_DATA_OUT_OF_RANGE s
        (MovingLightModel_SetDisplayInvert p header [v] s)) ∧
    (v ≤ DISPLAY_INVERT_AUTO →
      IsSetAck p header { s.g_moving_light with display_invert := v } s
        (MovingLightModel_SetDisplayInvert p header [v] s)) := by
  have hb : byteAt [v] 0 = v := by simp [byteAt, Nat.mod_eq_of_lt hv]
  refine ⟨?_, ?_, ?_, ?_, ?_, ?_⟩
  · intro hgt
    simp [MovingLightModel_SetLampState, hlen, hb, hgt, IsNack, call_BuildNack]
  · intro hle
    have hng : ¬ LAMP_STRIKE < v := Nat.not_lt.mpr hle
    constructor
    · simp only [MovingLightModel_SetLampState, hlen, hb, call_BuildSetAck, IsSetAck]
      simp [hng]
    · simp only [MovingLightModel_SetLampState, hlen, hb, call_BuildSetAck]
      simp only [ne_eq, not_true_eq_false, if_false, gt_iff_lt, hng]
      split_ifs <;> rfl
  · intro hgt
    simp [MovingLightModel_SetLampOnMode, hlen, hb, hgt, IsNack, call_BuildNack]
  · intro hle
    have hng : ¬ LAMP_ON_MODE_ON_AFTER_CAL < v := Nat.not_lt.mpr hle
    simp [MovingLightModel_SetLampOnMode, hlen, hb, hng, IsSetAck, call_BuildSetAck]
  · intro hgt
    simp [MovingLightModel_SetDisplayInvert, hlen, hb, hgt, IsNack, call_BuildNack]
  · intro hle
    have hng : ¬ DISPLAY_INVERT_AUTO < v := Nat.not_lt.mpr hle
    simp [MovingLightModel_SetDisplayInvert, hlen, hb, hng, IsSetAck, call_BuildSetAck]

/-- C8: from any state with lamp_state = LAMP_OFF, SET lamp-state with the
one-byte payload [LAMP_ON] returns the set-ACK, sets lamp_state to LAMP_ON and
adds exactly 1 (modulo 2^32) to lamp_strikes, changing no other field; the
identical SET repeated returns the set-ACK again and leaves the model state,
lamp_strikes and lamp_state included, as it was. -/
theorem SetLampState_off_to_on (p : Primitives W) (header : RDMHeader) (s : Firmware W)
    (hlen : header.param_data_length = 1)
    (hoff : s.g_moving_light.lamp_state = LAMP_OFF) :
    IsSetAck p header
        { s.g_moving_light with
            lamp_state := LAMP_ON
            lamp_strikes := (s.g_moving_light.lamp_strikes + 1) % 2 ^ 32 } s
        (MovingLightModel_SetLampState p header [LAMP_ON] s) ∧
    IsSetAck p header
        (MovingLightModel_SetLampState p header [LAMP_ON] s).2.g_moving_light
        (MovingLightModel_SetLampState p header [LAMP_ON] s).2
        (MovingLightModel_SetLampState p header [LAMP_ON]
          (MovingLightModel_SetLampState p header [LAMP_ON] s).2) := by
  have hb : byteAt [LAMP_ON] 0 = LAMP_ON := by decide
  have h1 : ¬ LAMP_ON > LAMP_STRIKE := by decide
  have h2 : LAMP_ON ≠ LAMP_STRIKE := by decide
  have h3 : LAMP_ON ≠ LAMP_OFF := by decide
  simp [MovingLightModel_SetLampState, hlen, hb, h1, h2, h3, hoff, IsSetAck,
    call_BuildSetAck]

/-- C9: a call of MovingLightModel_SetLampState or MovingLightModel_Tasks that
changes lamp_strikes started with lamp_state other than LAMP_ON, ends with
lamp_state = LAMP_ON and adds exactly 1 (modulo 2^32) to lamp_strikes; and a
SET lamp-state whose value equals the current lamp_state leaves lamp_strikes
unchanged. -/
theorem lamp_strikes_only_on_transition (p : Primitives W) (header : RDMHeader)
    (param_data : List Nat) (s : Firmware W) :
    ((MovingLightModel_SetLampState p header param_data s).2.g_moving_light.lamp_strikes
        ≠ s.g_moving_light.lamp_strikes →
      s.g_moving_light.lamp_state ≠ LAMP_ON ∧
      (MovingLightModel_SetLampState p header param_data s).2.g_moving_light.lamp_state
        = LAMP_ON ∧
      (MovingLightModel_SetLampState p header param_data s).2.g_moving_light.lamp_strikes
        = (s.g_moving_light.lamp_strikes + 1) % 2 ^ 32) ∧
    ((MovingLightModel_Tasks p s).g_moving_light.lamp_strikes
        ≠ s.g_moving_light.lamp_strikes →
      s.g_moving_light.lamp_state ≠ LAMP_ON ∧
      (MovingLightModel_Tasks p s).g_moving_light.lamp_state = LAMP_ON ∧
      (MovingLightModel_Tasks p s).g_moving_light.lamp_strikes
        = (s.g_moving_light.lamp_strikes + 1) % 2 ^ 32) ∧
    (byteAt param_data 0 = s.g_moving_light.lamp_state →
      (MovingLightModel_SetLampState p header param_data s).2.g_moving_light.lamp_strikes
        = s.g_moving_light.lamp_strikes) := by
  have hon : LAMP_ON ≠ LAMP_OFF := by decide
  have hst : LAMP_STRIKE ≠ LAMP_ON := by decide
  refine ⟨?_, ?_, ?_⟩
  · unfold MovingLightModel_SetLampState
    by_cases hlen : header.param_data_length ≠ 1
    · simp [hlen, call_BuildNack]
    · by_cases hgt : byteAt param_data 0 > LAMP_STRIKE
      · simp [hlen, hgt, call_BuildNack]
      · by_cases htr : s.g_moving_light.lamp_state = LAMP_OFF ∧
            byteAt param_data 0 = LAMP_ON
        · obtain ⟨hoff, hv⟩ := htr
          have h2 : LAMP_ON ≠ LAMP_STRIKE := by decide
          have h1 : ¬ LAMP_ON > LAMP_STRIKE := by decide
          simp [hlen, hv, hoff, h1, h2, call_BuildSetAck, Ne.symm hon]
        · simp only [hlen, hgt, htr, if_false, call_BuildSetAck]
          intro hne
          exfalso
          apply hne
          split_ifs <;> rfl
  · unfold MovingLightModel_Tasks
    split_ifs with hfire
    · intro _
      exact ⟨by rw [hfire.1]; exact hst, rfl, rfl⟩
    · intro hne
      exact absurd rfl hne
  · intro hsame
    unfold MovingLightModel_SetLampState
    by_cases hlen : header.param_data_length ≠ 1
    · simp [hlen, call_BuildNack]
    · by_cases hgt : byteAt param_data 0 > LAMP_STRIKE
      · simp [hlen, hgt, call_BuildNack]
      · have htr : ¬ (s.g_moving_light.lamp_state = LAMP_OFF ∧
            byteAt param_data 0 = LAMP_ON) := by
          rintro ⟨hoff, hv⟩
          rw [hsame, hoff] at hv
          exact hon hv.symm
        simp only [hlen, hgt, htr, if_false, call_BuildSetAck]
        split_ifs <;> rfl

end SetterTheorems

/-! ## Periodic tasks, round trips and idempotence of the model -/

section ModelTheorems
variable {W : Type}

/-- C11: MovingLightModel_Tasks changes the state only when lamp_state =
LAMP_STRIKE and the coarse timer reports LAMP_STRIKE_DELAY elapsed since
lamp_strike_time; it then sets lamp_state to LAMP_ON, adds 1 to the 32-bit
lamp_strikes (exactly lamp_strikes + 1 below the wrap at 2^32) and changes
nothing else; in every other case the state is unchanged, and a second call
right after any call is a no-op.  lamp_strike_time is the coarse time that a
SET lamp-state to LAMP_STRIKE recorded. -/
theorem Tasks_strike_to_on (p : Primitives W) (s : Firmware W) :
    ((s.g_moving_light.lamp_state = LAMP_STRIKE ∧
        p.CoarseTimer_HasElapsed s.g_moving_light.lamp_strike_time LAMP_STRIKE_DELAY
          s.world = true) →
      MovingLightModel_Tasks p s =
        { s with g_moving_light :=
            { s.g_moving_light with
                lamp_state := LAMP_ON
                lamp_strikes := (s.g_moving_light.lamp_strikes + 1) % 2 ^ 32 } } ∧
      (s.g_moving_light.lamp_strikes + 1 < 2 ^ 32 →
        (MovingLightModel_Tasks p s).g_moving_light.lamp_strikes
          = s.g_moving_light.lamp_strikes + 1)) ∧
    (¬ (s.g_moving_light.lamp_state = LAMP_STRIKE ∧
        p.CoarseTimer_HasElapsed s.g_moving_light.lamp_strike_time LAMP_STRIKE_DELAY
          s.world = true) →
      MovingLightModel_Tasks p s = s) ∧
    MovingLightModel_Tasks p (MovingLightModel_Tasks p s) = MovingLightModel_Tasks p s ∧
    (∀ header param_data, header.param_data_length = 1 →
      byteAt param_data 0 = LAMP_STRIKE →
      (MovingLightModel_SetLampState p header param_data s).2.g_moving_light.lamp_strike_time
        = p.CoarseTimer_GetTime s.world) := by
  have hne : LAMP_ON ≠ LAMP_STRIKE := by decide
  refine ⟨?_, ?_, ?_, ?_⟩
  · intro hfire
    refine ⟨by simp [MovingLightModel_Tasks, hfire], ?_⟩
    intro hlt
    rw [MovingLightModel_Tasks, if_pos hfire]
    exact Nat.mod_eq_of_lt hlt
  · intro hno
    simp only [MovingLightModel_Tasks, if_neg hno]
  · by_cases hfire : s.g_moving_light.lamp_state = LAMP_STRIKE ∧
        p.CoarseTimer_HasElapsed s.g_moving_light.lamp_strike_time LAMP_STRIKE_DELAY
          s.world = true
    · simp [MovingLightModel_Tasks, hfire, hne]
    · simp only [MovingLightModel_Tasks, if_neg hfire]
  · intro header param_data hlen hv
    have h1 : ¬ LAMP_STRIKE > LAMP_STRIKE := by decide
    have h2 : LAMP_STRIKE ≠ LAMP_ON := by decide
    simp [MovingLightModel_SetLampState, hlen, hv, h1, h2, call_BuildSetAck]

/-- C12: SET then GET round trip.  For each PID the model both sets and gets,
`PID_DESCRIPTORS` pairs the handlers named below, the set handler writes one
field and nothing else of the model, and the get handler for the same PID
hands exactly that field to the generic getter.  The typed setters store what
the generic setter leaves in the pointee and return its result; the enumerated
setters store the acknowledged byte.  On the sample responder a SET
display-level of any byte v is acknowledged and the following GET
display-level answers with the payload [v], in particular for 0xFF. -/
theorem set_get_round_trip (p : Primitives W) (set_header get_header : RDMHeader)
    (param_data get_data : List Nat) (s : Firmware W) :
    (∀ f : UInt32Field,
      tableHandlers f.pid = some (some .MovingLightModel_GetUInt32,
        some .MovingLightModel_SetUInt32) ∧
      (∀ g v, f.read (f.write g v) = v) ∧
      (ntohs set_header.param_id = f.pid → ntohs get_header.param_id = f.pid →
        (MovingLightModel_SetUInt32 p set_header param_data s).1
          = (p.RDMResponder_GenericSetUInt32 set_header param_data
              (f.read s.g_moving_light) s.world).1 ∧
        (MovingLightModel_SetUInt32 p set_header param_data s).2.g_moving_light
          = f.write s.g_moving_light
              (p.RDMResponder_GenericSetUInt32 set_header param_data
                (f.read s.g_moving_light) s.world).2.2 ∧
        MovingLightModel_GetUInt32 p get_header get_data
            (MovingLightModel_SetUInt32 p set_header param_data s).2
          = call_GenericGetUInt32 p get_header
              (p.RDMResponder_GenericSetUInt32 set_header param_data
                (f.read s.g_moving_light) s.world).2.2
              (MovingLightModel_SetUInt32 p set_header param_data s).2)) ∧
    (∀ f : BoolField,
      tableHandlers f.pid = some (some .MovingLightModel_GetBool,
        some .MovingLightModel_SetBool) ∧
      (∀ g v, f.read (f.write g v) = v) ∧
      (ntohs set_header.param_id = f.pid → ntohs get_header.param_id = f.pid →
        (MovingLightModel_SetBool p set_header param_data s).1
          = (p.RDMResponder_GenericSetBool set_header param_data
              (f.read s.g_moving_light) s.world).1 ∧
        (MovingLightModel_SetBool p set_header param_data s).2.g_moving_light
          = f.write s.g_moving_light
              (p.RDMResponder_GenericSetBool set_header param_data
                (f.read s.g_moving_light) s.world).2.2 ∧
        MovingLightModel_GetBool p get_header get_data
            (MovingLightModel_SetBool p set_header param_data s).2
          = call_GenericGetBool p get_header
              (p.RDMResponder_GenericSetBool set_header param_data
                (f.read s.g_moving_light) s.world).2.2
              (MovingLightModel_SetBool p set_header param_data s).2)) ∧
    (tableHandlers PID_DISPLAY_LEVEL = some (some .MovingLightModel_GetUInt8,
        some .MovingLightModel_SetUInt8) ∧
      (ntohs set_header.param_id = PID_DISPLAY_LEVEL →
        ntohs get_header.param_id = PID_DISPLAY_LEVEL →
        (MovingLightModel_SetUInt8 p set_header param_data s).1
          = (p.RDMResponder_GenericSetUInt8 set_header param_data
              s.g_moving_light.display_level s.world).1 ∧
        (MovingLightModel_SetUInt8 p set_header param_data s).2.g_moving_light
          = { s.g_moving_light with display_level :=
              (p.RDMResponder_GenericSetUInt8 set_header param_data
                s.g_moving_light.display_level s.world).2.2 } ∧
        MovingLightModel_GetUInt8 p get_header get_data
            (MovingLightModel_SetUInt8 p set_header param_data s).2
          = call_GenericGetUInt8 p get_header
              (p.RDMResponder_GenericSetUInt8 set_header param_data
                s.g_moving_light.display_level s.world).2.2
              (MovingLightModel_SetUInt8 p set_header param_data s).2)) ∧
    (∀ f : EnumField,
      tableHandlers f.pid = some (some .MovingLightModel_GetUInt8, some f.setHandler) ∧
      (∀ standard, invokeHandler p standard f.setHandler = f.set p) ∧
      (∀ g v, f.read (f.write g v) = v) ∧
      (set_header.param_data_length = 1 → byteAt param_data 0 ≤ f.bound →
        ntohs get_header.param_id = f.pid →
        IsSetAck p set_header (f.write s.g_moving_light (byteAt param_data 0)) s
          (f.set p set_header param_data s) ∧
        MovingLightModel_GetUInt8 p get_header get_data
            (f.set p set_header param_data s).2
          = call_GenericGetUInt8 p get_header (byteAt param_data 0)
              (f.set p set_header param_data s).2)) ∧
    (∀ v, v < 256 →
      Sample.replyData (MovingLightModel_SetUInt8 Sample.primitives
          (Sample.request SET_COMMAND PID_DISPLAY_LEVEL 1) [v]
          Sample.initial).2.world.reply = some (ACK, []) ∧
      (MovingLightModel_SetUInt8 Sample.primitives
          (Sample.request SET_COMMAND PID_DISPLAY_LEVEL 1) [v]
          Sample.initial).2.g_moving_light.display_level = v ∧
      Sample.replyData (MovingLightModel_GetUInt8 Sample.primitives
          (Sample.request GET_COMMAND PID_DISPLAY_LEVEL 0) []
          (MovingLightModel_SetUInt8 Sample.primitives
            (Sample.request SET_COMMAND PID_DISPLAY_LEVEL 1) [v]
            Sample.initial).2).2.world.reply = some (ACK, [v])) := by
  refine ⟨?_, ?_, ?_, ?_, ?_⟩
  · intro f
    refine ⟨by cases f <;> decide, by intro g v; cases f <;> rfl, ?_⟩
    intro hs hg
    cases f <;>
      simp [UInt32Field.pid] at hs hg <;>
      simp [MovingLightModel_SetUInt32, MovingLightModel_GetUInt32, hs, hg, storeField,
        call_GenericSetUInt32, call_GenericGetUInt32, UInt32Field.read, UInt32Field.write,
        PID_DEVICE_HOURS, PID_LAMP_HOURS, PID_LAMP_STRIKES, PID_DEVICE_POWER_CYCLES]
  · intro f
    refine ⟨by cases f <;> decide, by intro g v; cases f <;> rfl, ?_⟩
    intro hs hg
    cases f <;>
      simp [BoolField.pid] at hs hg <;>
      simp [MovingLightModel_SetBool, MovingLightModel_GetBool, hs, hg, storeField,
        call_GenericSetBool, call_GenericGetBool, BoolField.read, BoolField.write,
        PID_PAN_INVERT, PID_TILT_INVERT, PID_PAN_TILT_SWAP]
  · refine ⟨by decide, ?_⟩
    intro hs hg
    simp [MovingLightModel_SetUInt8, MovingLightModel_GetUInt8, hs, hg, storeField,
      call_GenericSetUInt8, call_GenericGetUInt8,
      PID_DISPLAY_LEVEL, PID_LAMP_STATE, PID_LAMP_ON_MODE, PID_DISPLAY_INVERT]
  · intro f
    refine ⟨by cases f <;> decide, by intro st; cases f <;> rfl,
      by intro g v; cases f <;> rfl, ?_⟩
    intro hlen hle hg
    cases f
    · have hng : ¬ LAMP_ON_MODE_ON_AFTER_CAL < byteAt param_data 0 := Nat.not_lt.mpr hle
      simp only [EnumField.pid] at hg
      simp [EnumField.set, MovingLightModel_SetLampOnMode, MovingLightModel_GetUInt8,
        hlen, hng, hg, IsSetAck, call_BuildSetAck, call_GenericGetUInt8, EnumField.write,
        PID_LAMP_STATE, PID_LAMP_ON_MODE]
    · have hng : ¬ DISPLAY_INVERT_AUTO < byteAt param_data 0 := Nat.not_lt.mpr hle
      simp only [EnumField.pid] at hg
      simp [EnumField.set, MovingLightModel_SetDisplayInvert, MovingLightModel_GetUInt8,
        hlen, hng, hg, IsSetAck, call_BuildSetAck, call_GenericGetUInt8, EnumField.write,
        PID_LAMP_STATE, PID_LAMP_ON_MODE, PID_DISPLAY_INVERT]
    · have hng : ¬ POWER_STATE_NORMAL < byteAt param_data 0 := Nat.not_lt.mpr hle
      simp only [EnumField.pid] at hg
      simp [EnumField.set, MovingLightModel_SetPowerState, MovingLightModel_GetUInt8,
        hlen, hng, hg, IsSetAck, call_BuildSetAck, call_GenericGetUInt8, EnumField.write,
        PID_DISPLAY_LEVEL, PID_LAMP_STATE, PID_LAMP_ON_MODE, PID_DISPLAY_INVERT,
        PID_POWER_STATE]
  · intro v hv
    have hb : byteAt [v] 0 = v := by simp [byteAt, Nat.mod_eq_of_lt hv]
    simp [MovingLightModel_SetUInt8, MovingLightModel_GetUInt8, storeField,
      call_GenericSetUInt8, call_GenericGetUInt8, Sample.primitives, Sample.request,
      Sample.initial, Sample.RDMResponder_GenericSetUInt8,
      Sample.RDMResponder_GenericGetUInt8, Sample.RDMResponder_BuildSetAck,
      Sample.buildFrame, Sample.replyData, Sample.fieldBytes, hb, ntohs,
      PID_DISPLAY_LEVEL, PID_LAMP_STATE, PID_LAMP_ON_MODE, PID_DISPLAY_INVERT, ACK,
      SET_COMMAND, GET_COMMAND, MovingLightModel_Initialize, Nat.mod_eq_of_lt hv]

/-- C13: idempotence of the enumerated setters.  For a one-byte payload
within the bound of the field, SetLampOnMode, SetDisplayInvert and
SetPowerState return the set-ACK on the first and on the second application
of the same request, and the second leaves the model state as the first left
it.  SetLampState with a value up to LAMP_STRIKE does the same, except that
the second application may record a new lamp_strike_time. -/
theorem enumerated_setters_idempotent (p : Primitives W) (header : RDMHeader)
    (param_data : List Nat) (s : Firmware W) (hlen : header.param_data_length = 1) :
    (∀ f : EnumField, byteAt param_data 0 ≤ f.bound →
      IsSetAck p header (f.write s.g_moving_light (byteAt param_data 0)) s
        (f.set p header param_data s) ∧
      IsSetAck p header (f.write s.g_moving_light (byteAt param_data 0))
        (f.set p header param_data s).2
        (f.set p header param_data (f.set p header param_data s).2)) ∧
    (byteAt param_data 0 ≤ LAMP_STRIKE →
      IsSetAck p header (MovingLightModel_SetLampState p header param_data s).2.g_moving_light
        s (MovingLightModel_SetLampState p header param_data s) ∧
      IsSetAck p header
        { (MovingLightModel_SetLampState p header param_data s).2.g_moving_light with
            lamp_strike_time :=
              (MovingLightModel_SetLampState p header param_data
                (MovingLightModel_SetLampState p header param_data s).2
              ).2.g_moving_light.lamp_strike_time }
        (MovingLightModel_SetLampState p header param_data s).2
        (MovingLightModel_SetLampState p header param_data
          (MovingLightModel_SetLampState p header param_data s).2)) := by
  constructor
  · intro f hle
    cases f
    · have hng : ¬ LAMP_ON_MODE_ON_AFTER_CAL < byteAt param_data 0 := Nat.not_lt.mpr hle
      simp [EnumField.set, MovingLightModel_SetLampOnMode, hlen, hng, IsSetAck,
        call_BuildSetAck, EnumField.write]
    · have hng : ¬ DISPLAY_INVERT_AUTO < byteAt param_data 0 := Nat.not_lt.mpr hle
      simp [EnumField.set, MovingLightModel_SetDisplayInvert, hlen, hng, IsSetAck,
        call_BuildSetAck, EnumField.write]
    · have hng : ¬ POWER_STATE_NORMAL < byteAt param_data 0 := Nat.not_lt.mpr hle
      simp [EnumField.set, MovingLightModel_SetPowerState, hlen, hng, IsSetAck,
        call_BuildSetAck, EnumField.write]
  · intro hle
    have hng : ¬ byteAt param_data 0 > LAMP_STRIKE := Nat.not_lt.mpr hle
    have hon : LAMP_ON ≠ LAMP_OFF := by decide
    refine ⟨?_, ?_⟩
    · simp [MovingLightModel_SetLampState, hlen, hng, IsSetAck, call_BuildSetAck]
    · by_cases hstrike : byteAt param_data 0 = LAMP_STRIKE
      · have h1 : LAMP_STRIKE ≠ LAMP_ON := by decide
        have h2 : ¬ LAMP_STRIKE > LAMP_STRIKE := by decide
        simp [MovingLightModel_SetLampState, hlen, hstrike, h1, h2, IsSetAck,
          call_BuildSetAck]
      · by_cases hv : byteAt param_data 0 = LAMP_ON
        · have h1 : LAMP_ON ≠ LAMP_STRIKE := by decide
          have h2 : ¬ LAMP_ON > LAMP_STRIKE := by decide
          by_cases hoff : s.g_moving_light.lamp_state = LAMP_OFF
          · simp [MovingLightModel_SetLampState, hlen, hv, h1, h2, hon, hoff, IsSetAck,
              call_BuildSetAck]
          · simp [MovingLightModel_SetLampState, hlen, hv, h1, h2, hon, hoff, IsSetAck,
              call_BuildSetAck]
        · simp [MovingLightModel_SetLampState, hlen, hng, hv, hstrike, IsSetAck,
            call_BuildSetAck]

end ModelTheorems

/-! ## The host message handler -/

section MessageHandlerTheorems
variable {T : Type}

theorem sentMessages_append (xs ys : List HostEvent) :
    sentMessages (xs ++ ys) = sentMessages xs ++ sentMessages ys := by
  induction xs with
  | nil => rfl
  | cons e es ih => cases e <;> simp [sentMessages, ih]

/-- C14 on the code: for the plain DMX transmit and for the DUB every result
other than COMPLETED_OK is reported with RC_UNKNOWN; for every other operation
type (the RDM request) a result that is neither COMPLETED_OK nor RX_TIMEOUT is
reported with RC_OK, not RC_UNKNOWN. -/
theorem TransceiverEvent_other_failure (c : HostCollaborators T) (token : Nat)
    (data : List Nat) (length : Nat) (h : Host T) :
    (∀ result, result ≠ TransceiverResult.COMPLETED_OK →
      MessageHandler_TransceiverEvent c token TransceiverOperation.TRANSCEIVER_NO_RESPONSE
          result data length h
        = SendMessage Command.TX_DMX ReturnCode.RC_UNKNOWN [⟨data, length⟩]
            (callVoid (c.SysLog_Print result length)
              (HostEvent.SysLog_Print result length) h) ∧
      MessageHandler_TransceiverEvent c token TransceiverOperation.RDM_DUB
          result data length h
        = SendMessage Command.COMMAND_RDM_DUB_REQUEST ReturnCode.RC_UNKNOWN
            [⟨data, length⟩]
            (callVoid (c.SysLog_Print result length)
              (HostEvent.SysLog_Print result length) h)) ∧
    (∀ type_code result_code,
      MessageHandler_TransceiverEvent c token (TransceiverOperation.other type_code)
          (TransceiverResult.other result_code) data length h
        = SendMessage Command.COMMAND_RDM_REQUEST ReturnCode.RC_OK [⟨data, length⟩]
            (callVoid (c.SysLog_Print (TransceiverResult.other result_code) length)
              (HostEvent.SysLog_Print (TransceiverResult.other result_code) length) h)) := by
  constructor
  · intro result hres
    simp [MessageHandler_TransceiverEvent, hres]
  · intro type_code result_code
    simp [MessageHandler_TransceiverEvent]

/-- C15: on completion with COMPLETED_OK the response carries RC_OK; and for
every result the command code depends on the operation type alone: TX_DMX for
TRANSCEIVER_NO_RESPONSE, COMMAND_RDM_DUB_REQUEST for RDM_DUB,
COMMAND_RDM_REQUEST for every other operation type. -/
theorem TransceiverEvent_completed_ok (c : HostCollaborators T) (token : Nat)
    (data : List Nat) (length : Nat) (h : Host T) :
    (∀ type,
      MessageHandler_TransceiverEvent c token type TransceiverResult.COMPLETED_OK
          data length h
        = SendMessage
            (match type with
              | TransceiverOperation.TRANSCEIVER_NO_RESPONSE => Command.TX_DMX
              | TransceiverOperation.RDM_DUB => Command.COMMAND_RDM_DUB_REQUEST
              | TransceiverOperation.other _ => Command.COMMAND_RDM_REQUEST)
            ReturnCode.RC_OK [⟨data, length⟩]
            (callVoid (c.SysLog_Print TransceiverResult.COMPLETED_OK length)
              (HostEvent.SysLog_Print TransceiverResult.COMPLETED_OK length) h)) ∧
    (∀ type result, ∃ rc,
      MessageHandler_TransceiverEvent c token type result data length h
        = SendMessage
            (match type with
              | TransceiverOperation.TRANSCEIVER_NO_RESPONSE => Command.TX_DMX
              | TransceiverOperation.RDM_DUB => Command.COMMAND_RDM_DUB_REQUEST
              | TransceiverOperation.other _ => Command.COMMAND_RDM_REQUEST)
            rc [⟨data, length⟩]
            (callVoid (c.SysLog_Print result length)
              (HostEvent.SysLog_Print result length) h)) := by
  constructor
  · intro type
    cases type <;> simp [MessageHandler_TransceiverEvent]
  · intro type result
    cases type
    · exact ⟨if result = TransceiverResult.COMPLETED_OK then ReturnCode.RC_OK
        else ReturnCode.RC_UNKNOWN, by simp [MessageHandler_TransceiverEvent]⟩
    · exact ⟨if result = TransceiverResult.COMPLETED_OK then ReturnCode.RC_OK
        else ReturnCode.RC_UNKNOWN, by simp [MessageHandler_TransceiverEvent]⟩
    · exact ⟨if result = TransceiverResult.RX_TIMEOUT then ReturnCode.RC_RX_TIMEOUT
        else ReturnCode.RC_OK, by simp [MessageHandler_TransceiverEvent]⟩

/-- C16: the completion handler reports RC_RX_TIMEOUT exactly when the result
is RX_TIMEOUT and the operation type is neither TRANSCEIVER_NO_RESPONSE nor
RDM_DUB; an RX_TIMEOUT on a plain DMX transmit or on a DUB is reported as
RC_UNKNOWN. -/
theorem TransceiverEvent_rx_timeout (c : HostCollaborators T) (token : Nat)
    (type : TransceiverOperation) (result : TransceiverResult)
    (data : List Nat) (length : Nat) (h : Host T) :
    ((∃ command iov,
        (MessageHandler_TransceiverEvent c token type result data length h).events
          = h.events ++ [HostEvent.SysLog_Print result length,
              HostEvent.SendMessage command ReturnCode.RC_RX_TIMEOUT iov]) ↔
      (result = TransceiverResult.RX_TIMEOUT ∧
        type ≠ TransceiverOperation.TRANSCEIVER_NO_RESPONSE ∧
        type ≠ TransceiverOperation.RDM_DUB)) ∧
    (MessageHandler_TransceiverEvent c token TransceiverOperation.TRANSCEIVER_NO_RESPONSE
        TransceiverResult.RX_TIMEOUT data length h).events
      = h.events ++ [HostEvent.SysLog_Print TransceiverResult.RX_TIMEOUT length,
          HostEvent.SendMessage Command.TX_DMX ReturnCode.RC_UNKNOWN [⟨data, length⟩]] ∧
    (MessageHandler_TransceiverEvent c token TransceiverOperation.RDM_DUB
        TransceiverResult.RX_TIMEOUT data length h).events
      = h.events ++ [HostEvent.SysLog_Print TransceiverResult.RX_TIMEOUT length,
          HostEvent.SendMessage Command.COMMAND_RDM_DUB_REQUEST ReturnCode.RC_UNKNOWN
            [⟨data, length⟩]] := by
  refine ⟨?_, ?_, ?_⟩
  · constructor
    · rintro ⟨command, iov, hev⟩
      cases type <;> cases result <;>
        simp [MessageHandler_TransceiverEvent, SendMessage, callVoid, Host.record] at hev ⊢
    · rintro ⟨hres, hno, hdub⟩
      subst hres
      cases type
      · exact absurd rfl hno
      · exact absurd rfl hdub
      · exact ⟨Command.COMMAND_RDM_REQUEST, [⟨data, length⟩], by
          simp [MessageHandler_TransceiverEvent, SendMessage, callVoid, Host.record]⟩
  · simp [MessageHandler_TransceiverEvent, SendMessage, callVoid, Host.record]
  · simp [MessageHandler_TransceiverEvent, SendMessage, callVoid, Host.record]

/-- C17: every completion event hands exactly one message to the transport;
its payload is the completion data with the completion length, unchanged, for
every result; and nothing of the outcome depends on the token. -/
theorem TransceiverEvent_one_response (c : HostCollaborators T) (token : Nat)
    (type : TransceiverOperation) (result : TransceiverResult)
    (data : List Nat) (length : Nat) (h : Host T) :
    (∃ command rc,
      sentMessages (MessageHandler_TransceiverEvent c token type result data length h).events
        = sentMessages h.events ++ [(command, rc, [⟨data, length⟩])]) ∧
    (∀ other_token,
      MessageHandler_TransceiverEvent c other_token type result data length h
        = MessageHandler_TransceiverEvent c token type result data length h) := by
  constructor
  · cases type <;>
      simp [MessageHandler_TransceiverEvent, SendMessage, callVoid, Host.record,
        sentMessages_append, sentMessages]
  · intro other_token
    rfl

/-- C18: for TX_DMX, COMMAND_RDM_DUB_REQUEST and COMMAND_RDM_REQUEST the
handler calls the matching queue function once, with token 0 and the message's
payload and length, and nothing else; if the queue takes the job nothing is
sent, and if the queue rejects it exactly one message is sent, with the same
command code, RC_BUFFER_FULL and no payload. -/
theorem HandleMessage_queue (c : HostCollaborators T) (payload : List Nat)
    (length : Nat) (h : Host T) :
    MessageHandler_HandleMessage c ⟨Command.TX_DMX, payload, length⟩ h
      = Except.ok
        { env := (c.Transceiver_QueueDMX 0 payload length h.env).2
          events := h.events ++
            (HostEvent.Transceiver_QueueDMX 0 payload length ::
              if (c.Transceiver_QueueDMX 0 payload length h.env).1 = true then []
              else [HostEvent.SendMessage Command.TX_DMX ReturnCode.RC_BUFFER_FULL []]) } ∧
    MessageHandler_HandleMessage c ⟨Command.COMMAND_RDM_DUB_REQUEST, payload, length⟩ h
      = Except.ok
        { env := (c.Transceiver_QueueRDMDUB 0 payload length h.env).2
          events := h.events ++
            (HostEvent.Transceiver_QueueRDMDUB 0 payload length ::
              if (c.Transceiver_QueueRDMDUB 0 payload length h.env).1 = true then []
              else [HostEvent.SendMessage Command.COMMAND_RDM_DUB_REQUEST
                ReturnCode.RC_BUFFER_FULL []]) } ∧
    MessageHandler_HandleMessage c ⟨Command.COMMAND_RDM_REQUEST, payload, length⟩ h
      = Except.ok
        { env := (c.Transceiver_QueueRDMRequest 0 payload length h.env).2
          events := h.events ++
            (HostEvent.Transceiver_QueueRDMRequest 0 payload length ::
              if (c.Transceiver_QueueRDMRequest 0 payload length h.env).1 = true then []
              else [HostEvent.SendMessage Command.COMMAND_RDM_REQUEST
                ReturnCode.RC_BUFFER_FULL []]) } := by
  refine ⟨?_, ?_, ?_⟩
  · cases hq : (c.Transceiver_QueueDMX 0 payload length h.env).1 <;>
      simp [MessageHandler_HandleMessage, callBool, SendMessage, Host.record, hq]
  · cases hq : (c.Transceiver_QueueRDMDUB 0 payload length h.env).1 <;>
      simp [MessageHandler_HandleMessage, callBool, SendMessage, Host.record, hq]
  · cases hq : (c.Transceiver_QueueRDMRequest 0 payload length h.env).1 <;>
      simp [MessageHandler_HandleMessage, callBool, SendMessage, Host.record, hq]

/-- C19: a timing SET command whose payload length is not 2 is answered with
exactly one message, carrying that command code, RC_BAD_PARAM and no payload;
no payload byte is read, no transceiver function is called and the state of
the other modules, the timing configuration included, is unchanged. -/
theorem timing_set_bad_length (c : HostCollaborators T) (payload : List Nat)
    (length : Nat) (h : Host T) (hlen : length ≠ 2) :
    MessageHandler_HandleMessage c ⟨Command.SET_BREAK_TIME, payload, length⟩ h
      = Except.ok
        { env := h.env
          events := h.events ++
            [HostEvent.SendMessage Command.SET_BREAK_TIME ReturnCode.RC_BAD_PARAM []] } ∧
    MessageHandler_HandleMessage c ⟨Command.SET_MAB_TIME, payload, length⟩ h
      = Except.ok
        { env := h.env
          events := h.events ++
            [HostEvent.SendMessage Command.SET_MAB_TIME ReturnCode.RC_BAD_PARAM []] } ∧
    MessageHandler_HandleMessage c ⟨Command.SET_RDM_BROADCAST_LISTEN, payload, length⟩ h
      = Except.ok
        { env := h.env
          events := h.events ++
            [HostEvent.SendMessage Command.SET_RDM_BROADCAST_LISTEN
              ReturnCode.RC_BAD_PARAM []] } ∧
    MessageHandler_HandleMessage c ⟨Command.SET_RDM_WAIT_TIME, payload, length⟩ h
      = Except.ok
        { env := h.env
          events := h.events ++
            [HostEvent.SendMessage Command.SET_RDM_WAIT_TIME ReturnCode.RC_BAD_PARAM []] } := by
  simp [MessageHandler_HandleMessage, MessageHandler_SetBreakTime,
    MessageHandler_SetMarkTime, MessageHandler_SetRDMBroadcastListen,
    MessageHandler_SetRDMWaitTime, hlen, SendMessage, Host.record]

/-- C20: a timing SET command with the two-byte payload [b0, b1] reads the two
bytes, calls the setter of its own parameter once with b0 + 256 * b1 (at most
65535), calls nothing else, and sends exactly one message: that SET command
code, no payload, RC_OK if the setter took the value and RC_BAD_PARAM
otherwise. -/
theorem timing_set_two_bytes (c : HostCollaborators T) (b0 b1 : Nat) (h : Host T)
    (h0 : b0 < 256) (h1 : b1 < 256) :
    b0 + 256 * b1 ≤ 65535 ∧
    MessageHandler_HandleMessage c ⟨Command.SET_BREAK_TIME, [b0, b1], 2⟩ h
      = Except.ok
        { env := (c.Transceiver_SetBreakTime (b0 + 256 * b1) h.env).2
          events := h.events ++
            [HostEvent.PayloadRead 0, HostEvent.PayloadRead 1,
             HostEvent.Transceiver_SetBreakTime (b0 + 256 * b1),
             HostEvent.SendMessage Command.SET_BREAK_TIME
               (if (c.Transceiver_SetBreakTime (b0 + 256 * b1) h.env).1 = true
                then ReturnCode.RC_OK else ReturnCode.RC_BAD_PARAM) []] } ∧
    MessageHandler_HandleMessage c ⟨Command.SET_MAB_TIME, [b0, b1], 2⟩ h
      = Except.ok
        { env := (c.Transceiver_SetMarkTime (b0 + 256 * b1) h.env).2
          events := h.events ++
            [HostEvent.PayloadRead 0, HostEvent.PayloadRead 1,
             HostEvent.Transceiver_SetMarkTime (b0 + 256 * b1),
             HostEvent.SendMessage Command.SET_MAB_TIME
               (if (c.Transceiver_SetMarkTime (b0 + 256 * b1) h.env).1 = true
                then ReturnCode.RC_OK else ReturnCode.RC_BAD_PARAM) []] } ∧
    MessageHandler_HandleMessage c ⟨Command.SET_RDM_BROADCAST_LISTEN, [b0, b1], 2⟩ h
      = Except.ok
        { env := (c.Transceiver_SetRDMBroadcastListen (b0 + 256 * b1) h.env).2
          events := h.events ++
            [HostEvent.PayloadRead 0, HostEvent.PayloadRead 1,
             HostEvent.Transceiver_SetRDMBroadcastListen (b0 + 256 * b1),
             HostEvent.SendMessage Command.SET_RDM_BROADCAST_LISTEN
               (if (c.Transceiver_SetRDMBroadcastListen (b0 + 256 * b1) h.env).1 = true
                then ReturnCode.RC_OK else ReturnCode.RC_BAD_PARAM) []] } ∧
    MessageHandler_HandleMessage c ⟨Command.SET_RDM_WAIT_TIME, [b0, b1], 2⟩ h
      = Except.ok
        { env := (c.Transceiver_SetRDMWaitTime (b0 + 256 * b1) h.env).2
          events := h.events ++
            [HostEvent.PayloadRead 0, HostEvent.PayloadRead 1,
             HostEvent.Transceiver_SetRDMWaitTime (b0 + 256 * b1),
             HostEvent.SendMessage Command.SET_RDM_WAIT_TIME
               (if (c.Transceiver_SetRDMWaitTime (b0 + 256 * b1) h.env).1 = true
                then ReturnCode.RC_OK else ReturnCode.RC_BAD_PARAM) []] } := by
  have hb0 : byteAt [b0, b1] 0 = b0 := by simp [byteAt, Nat.mod_eq_of_lt h0]
  have hb1 : byteAt [b0, b1] 1 = b1 := by simp [byteAt, Nat.mod_eq_of_lt h1]
  have hle : b0 + 256 * b1 ≤ 65535 := by omega
  have hv : (b0 + b1 * 256) % 65536 = b0 + 256 * b1 := by omega
  refine ⟨hle, ?_, ?_, ?_, ?_⟩ <;>
    simp [MessageHandler_HandleMessage, MessageHandler_SetBreakTime,
      MessageHandler_SetMarkTime, MessageHandler_SetRDMBroadcastListen,
      MessageHandler_SetRDMWaitTime, readPayload, callBool, SendMessage, Host.record,
      hb0, hb1, hv]

/-- C21: timing round trip.  For each of the four timing parameters and every
two-byte payload [b0, b1]: if the transceiver's setter takes the decoded value
and its getter then returns it, the SET is answered with RC_OK and the
following GET of the same parameter is answered with the GET command code,
RC_OK and the two-byte payload [b0, b1]. -/
theorem timing_round_trip (c : HostCollaborators T) (b0 b1 : Nat)
    (get_payload : List Nat) (get_length : Nat) (h : Host T)
    (h0 : b0 < 256) (h1 : b1 < 256) :
    ((c.Transceiver_SetBreakTime (b0 + 256 * b1) h.env).1 = true →
      c.Transceiver_GetBreakTime (c.Transceiver_SetBreakTime (b0 + 256 * b1) h.env).2
        = b0 + 256 * b1 →
      (MessageHandler_HandleMessage c ⟨Command.SET_BREAK_TIME, [b0, b1], 2⟩ h).bind
          (MessageHandler_HandleMessage c ⟨Command.GET_BREAK_TIME, get_payload, get_length⟩)
        = Except.ok
          { env := (c.Transceiver_SetBreakTime (b0 + 256 * b1) h.env).2
            events := h.events ++
              [HostEvent.PayloadRead 0, HostEvent.PayloadRead 1,
               HostEvent.Transceiver_SetBreakTime (b0 + 256 * b1),
               HostEvent.SendMessage Command.SET_BREAK_TIME ReturnCode.RC_OK [],
               HostEvent.Transceiver_GetBreakTime,
               HostEvent.SendMessage Command.GET_BREAK_TIME ReturnCode.RC_OK
                 [⟨[b0, b1], 2⟩]] }) ∧
    ((c.Transceiver_SetMarkTime (b0 + 256 * b1) h.env).1 = true →
      c.Transceiver_GetMarkTime (c.Transceiver_SetMarkTime (b0 + 256 * b1) h.env).2
        = b0 + 256 * b1 →
      (MessageHandler_HandleMessage c ⟨Command.SET_MAB_TIME, [b0, b1], 2⟩ h).bind
          (MessageHandler_HandleMessage c ⟨Command.GET_MAB_TIME, get_payload, get_length⟩)
        = Except.ok
          { env := (c.Transceiver_SetMarkTime (b0 + 256 * b1) h.env).2
            events := h.events ++
              [HostEvent.PayloadRead 0, HostEvent.PayloadRead 1,
               HostEvent.Transceiver_SetMarkTime (b0 + 256 * b1),
               HostEvent.SendMessage Command.SET_MAB_TIME ReturnCode.RC_OK [],
               HostEvent.Transceiver_GetMarkTime,
               HostEvent.SendMessage Command.GET_MAB_TIME ReturnCode.RC_OK
                 [⟨[b0, b1], 2⟩]] }) ∧
    ((c.Transceiver_SetRDMBroadcastListen (b0 + 256 * b1) h.env).1 = true →
      c.Transceiver_GetRDMBroadcastListen
          (c.Transceiver_SetRDMBroadcastListen (b0 + 256 * b1) h.env).2
        = b0 + 256 * b1 →
      (MessageHandler_HandleMessage c ⟨Command.SET_RDM_BROADCAST_LISTEN, [b0, b1], 2⟩ h).bind
          (MessageHandler_HandleMessage c
            ⟨Command.GET_RDM_BROADCAST_LISTEN, get_payload, get_length⟩)
        = Except.ok
          { env := (c.Transceiver_SetRDMBroadcastListen (b0 + 256 * b1) h.env).2
            events := h.events ++
              [HostEvent.PayloadRead 0, HostEvent.PayloadRead 1,
               HostEvent.Transceiver_SetRDMBroadcastListen (b0 + 256 * b1),
               HostEvent.SendMessage Command.SET_RDM_BROADCAST_LISTEN ReturnCode.RC_OK [],
               HostEvent.Transceiver_GetRDMBroadcastListen,
               HostEvent.SendMessage Command.GET_RDM_BROADCAST_LISTEN ReturnCode.RC_OK
                 [⟨[b0, b1], 2⟩]] }) ∧
    ((c.Transceiver_SetRDMWaitTime (b0 + 256 * b1) h.env).1 = true →
      c.Transceiver_GetRDMWaitTime (c.Transceiver_SetRDMWaitTime (b0 + 256 * b1) h.env).2
        = b0 + 256 * b1 →
      (MessageHandler_HandleMessage c ⟨Command.SET_RDM_WAIT_TIME, [b0, b1], 2⟩ h).bind
          (MessageHandler_HandleMessage c ⟨Command.GET_RDM_WAIT_TIME, get_payload, get_length⟩)
        = Except.ok
          { env := (c.Transceiver_SetRDMWaitTime (b0 + 256 * b1) h.env).2
            events := h.events ++
              [HostEvent.PayloadRead 0, HostEvent.PayloadRead 1,
               HostEvent.Transceiver_SetRDMWaitTime (b0 + 256 * b1),
               HostEvent.SendMessage Command.SET_RDM_WAIT_TIME ReturnCode.RC_OK [],
               HostEvent.Transceiver_GetRDMWaitTime,
               HostEvent.SendMessage Command.GET_RDM_WAIT_TIME ReturnCode.RC_OK
                 [⟨[b0, b1], 2⟩]] }) := by
  have hb0 : byteAt [b0, b1] 0 = b0 := by simp [byteAt, Nat.mod_eq_of_lt h0]
  have hb1 : byteAt [b0, b1] 1 = b1 := by simp [byteAt, Nat.mod_eq_of_lt h1]
  have hv : (b0 + b1 * 256) % 65536 = b0 + 256 * b1 := by omega
  have hlo : (b0 + 256 * b1) % 256 = b0 := by omega
  have hhi : (b0 + 256 * b1) / 256 % 256 = b1 := by omega
  refine ⟨?_, ?_, ?_, ?_⟩ <;>
  · intro hok hget
    simp [MessageHandler_HandleMessage, MessageHandler_SetBreakTime,
      MessageHandler_SetMarkTime, MessageHandler_SetRDMBroadcastListen,
      MessageHandler_SetRDMWaitTime, MessageHandler_ReturnBreakTime,
      MessageHandler_ReturnMABTime, MessageHandler_ReturnRDMBroadcastListen,
      MessageHandler_ReturnRDMWaitTime, readPayload, callBool, callGet, SendMessage,
      Host.record, uint16Bytes, Except.bind, hb0, hb1, hv, hok, hget, hlo, hhi]

/-- C22: a message whose command code is none of those the switch handles is
answered with exactly one message carrying the same command code, RC_UNKNOWN
and no payload; no collaborator is called and the state of the other modules
is unchanged. -/
theorem HandleMessage_unknown_command (c : HostCollaborators T) (code : Nat)
    (payload : List Nat) (length : Nat) (h : Host T) :
    MessageHandler_HandleMessage c ⟨Command.other code, payload, length⟩ h
      = Except.ok
        { env := h.env
          events := h.events ++
            [HostEvent.SendMessage (Command.other code) ReturnCode.RC_UNKNOWN []] } := by
  simp [MessageHandler_HandleMessage, SendMessage, Host.record]

/-- C23: an ECHO message is answered with exactly one message: command ECHO,
RC_OK and one IOVec holding the message's payload with the message's length,
the empty payload included; nothing else happens. -/
theorem HandleMessage_echo (c : HostCollaborators T) (payload : List Nat)
    (length : Nat) (h : Host T) :
    MessageHandler_HandleMessage c ⟨Command.ECHO, payload, length⟩ h
      = Except.ok
        { env := h.env
          events := h.events ++
            [HostEvent.SendMessage Command.ECHO ReturnCode.RC_OK [⟨payload, length⟩]] } := by
  simp [MessageHandler_HandleMessage, MessageHandler_Echo, SendMessage, Host.record]

/-- C24: a WRITE_LOG message with a non-empty payload hands the whole payload
to Logger_Write, reads the last payload byte, calls Logger_Log with the empty
string exactly when that byte is non-zero, and then sends exactly one message:
WRITE_LOG, RC_OK, no payload. -/
theorem HandleMessage_write_log (c : HostCollaborators T) (payload : List Nat)
    (length : Nat) (h : Host T) (hpos : 0 < length) (hlt : length < 2 ^ 32) :
    (byteAt payload (length - 1) ≠ 0 →
      MessageHandler_HandleMessage c ⟨Command.WRITE_LOG, payload, length⟩ h
        = Except.ok
          { env := c.Logger_Log [] (c.Logger_Write payload length h.env)
            events := h.events ++
              [HostEvent.Logger_Write payload length, HostEvent.PayloadRead (length - 1),
               HostEvent.Logger_Log [],
               HostEvent.SendMessage Command.WRITE_LOG ReturnCode.RC_OK []] }) ∧
    (byteAt payload (length - 1) = 0 →
      MessageHandler_HandleMessage c ⟨Command.WRITE_LOG, payload, length⟩ h
        = Except.ok
          { env := c.Logger_Write payload length h.env
            events := h.events ++
              [HostEvent.Logger_Write payload length, HostEvent.PayloadRead (length - 1),
               HostEvent.SendMessage Command.WRITE_LOG ReturnCode.RC_OK []] }) := by
  have hidx : (length + 2 ^ 32 - 1) % 2 ^ 32 = length - 1 := by omega
  have hin : length - 1 < length := by omega
  constructor
  · intro hnz
    simp only [MessageHandler_HandleMessage, MessageHandler_WriteLog, readPayload, hidx]
    simp [hnz, hin, callVoid, SendMessage, Host.record]
  · intro hz
    simp only [MessageHandler_HandleMessage, MessageHandler_WriteLog, readPayload, hidx]
    simp [hz, hin, callVoid, SendMessage, Host.record]

/-- C25 on the code: for a payload length between 1 and 2^32 - 1 the one byte
MessageHandler_WriteLog reads is the last one, at index length - 1, and the
function runs to its end; for length 0 the index length - 1 wraps to
4294967295, the byte read lies outside the payload, and the function stops at
that read, after Logger_Write, with the behaviour of the program undefined. -/
theorem WriteLog_read_index (c : HostCollaborators T) (payload : List Nat) (h : Host T) :
    (∀ length, 0 < length → length < 2 ^ 32 →
      (∃ h1, MessageHandler_WriteLog c ⟨Command.WRITE_LOG, payload, length⟩ h
        = Except.ok h1) ∧
      (reached (MessageHandler_WriteLog c ⟨Command.WRITE_LOG, payload, length⟩ h)).events.filter
          (fun e => e matches HostEvent.PayloadRead _)
        = h.events.filter (fun e => e matches HostEvent.PayloadRead _) ++
            [HostEvent.PayloadRead (length - 1)] ∧
      length - 1 < length) ∧
    MessageHandler_WriteLog c ⟨Command.WRITE_LOG, payload, 0⟩ h
      = Except.error
        { env := c.Logger_Write payload 0 h.env
          events := h.events ++
            [HostEvent.Logger_Write payload 0, HostEvent.PayloadRead 4294967295] } ∧
    (reached (MessageHandler_WriteLog c ⟨Command.WRITE_LOG, payload, 0⟩ h)).events.filter
        (fun e => e matches HostEvent.PayloadRead _)
      = h.events.filter (fun e => e matches HostEvent.PayloadRead _) ++
          [HostEvent.PayloadRead 4294967295] ∧
    ¬ (4294967295 < 0) := by
  refine ⟨?_, ?_, ?_, by decide⟩
  · intro length hpos hlt
    have hidx : (length + 2 ^ 32 - 1) % 2 ^ 32 = length - 1 := by omega
    have hin : length - 1 < length := by omega
    refine ⟨?_, ?_, hin⟩
    · simp only [MessageHandler_WriteLog, readPayload, hidx, if_pos hin]
      split_ifs <;> simp
    · simp only [MessageHandler_WriteLog, readPayload, hidx, if_pos hin]
      split_ifs <;> simp [reached, callVoid, Host.record, List.filter_append]
  · simp [MessageHandler_WriteLog, readPayload, callVoid, Host.record]
  · simp [MessageHandler_WriteLog, readPayload, reached, callVoid, Host.record,
      List.filter_append]

/-- C26 on the code: for every message other than a WRITE_LOG message of
length 0, MessageHandler_HandleMessage runs to its end having sent at most one
message, whose command code is the message's, and exactly one for every
command other than TX_DMX, COMMAND_RDM_DUB_REQUEST, COMMAND_RDM_REQUEST,
GET_LOG and GET_FLAGS; for COMMAND_RESET_DEVICE the reset hook is called once
and then the one message is sent, with RC_OK and no payload.  For a WRITE_LOG
message of length 0 the handler stops at the read of payload[4294967295],
outside the payload, before any message is sent: from there the behaviour of
the program is undefined and no response is established. -/
theorem HandleMessage_at_most_one (c : HostCollaborators T) (message : Message)
    (h : Host T) :
    (¬ (message.command = Command.WRITE_LOG ∧ message.length = 0) →
      ∃ h1, MessageHandler_HandleMessage c message h = Except.ok h1 ∧
        (sentSince h.events h1.events).length ≤ 1 ∧
        (∀ m ∈ sentSince h.events h1.events, m.1 = message.command) ∧
        (message.command ≠ Command.TX_DMX →
          message.command ≠ Command.COMMAND_RDM_DUB_REQUEST →
          message.command ≠ Command.COMMAND_RDM_REQUEST →
          message.command ≠ Command.GET_LOG →
          message.command ≠ Command.GET_FLAGS →
          (sentSince h.events h1.events).length = 1)) ∧
    (message.command = Command.COMMAND_RESET_DEVICE →
      MessageHandler_HandleMessage c message h
        = Except.ok
          { env := c.APP_Reset h.env
            events := h.events ++
              [HostEvent.APP_Reset,
               HostEvent.SendMessage Command.COMMAND_RESET_DEVICE ReturnCode.RC_OK []] }) ∧
    (message.command = Command.WRITE_LOG ∧ message.length = 0 →
      MessageHandler_HandleMessage c message h
        = Except.error
          { env := c.Logger_Write message.payload 0 h.env
            events := h.events ++
              [HostEvent.Logger_Write message.payload 0,
               HostEvent.PayloadRead 4294967295] } ∧
      sentSince h.events
        (reached (MessageHandler_HandleMessage c message h)).events = []) := by
  obtain ⟨command, payload, length⟩ := message
  have hidx : 0 < length → (length + 2 ^ 32 - 1) % 2 ^ 32 < length := by
    intro hpos
    rcases Nat.lt_or_ge length (2 ^ 32) with hlt | hge
    · have : (length + 2 ^ 32 - 1) % 2 ^ 32 = length - 1 := by omega
      omega
    · have : (length + 2 ^ 32 - 1) % 2 ^ 32 < 2 ^ 32 := Nat.mod_lt _ (by decide)
      omega
  refine ⟨?_, ?_, ?_⟩
  · intro hdef
    cases command
    case WRITE_LOG =>
      have hpos : 0 < length := by
        rcases Nat.eq_zero_or_pos length with hz | hp
        · exact absurd ⟨rfl, hz⟩ hdef
        · exact hp
      simp only [MessageHandler_HandleMessage, MessageHandler_WriteLog, readPayload,
        if_pos (hidx hpos)]
      split_ifs <;> simp [callVoid, SendMessage, Host.record, sentSince, sentMessages] <;>
        (intros; assumption)
    all_goals
      simp only [MessageHandler_HandleMessage, MessageHandler_Echo,
        MessageHandler_SetBreakTime, MessageHandler_SetMarkTime,
        MessageHandler_SetRDMBroadcastListen, MessageHandler_SetRDMWaitTime,
        MessageHandler_ReturnBreakTime, MessageHandler_ReturnMABTime,
        MessageHandler_ReturnRDMBroadcastListen, MessageHandler_ReturnRDMWaitTime,
        readPayload, callBool, callVoid, callGet, SendMessage, Host.record, sentSince]
      (try split_ifs) <;> simp [sentMessages] <;> (intros; assumption)
  · intro hcmd
    simp only at hcmd
    subst hcmd
    simp [MessageHandler_HandleMessage, callVoid, SendMessage, Host.record]
  · rintro ⟨hcmd, hlen⟩
    simp only at hcmd hlen
    subst hcmd hlen
    simp [MessageHandler_HandleMessage, MessageHandler_WriteLog, readPayload, reached,
      callVoid, Host.record, sentSince, sentMessages]

end MessageHandlerTheorems

/-! ## Lifecycle hooks, frame constants and the PID table -/

section LifecycleTheorems
variable {W : Type}

/-- C27: MovingLightModel_Ioctl returns 1 exactly when the command is
IOCTL_GET_UID and the length is UID_LENGTH (6), and the buffer then holds what
RDMResponder_GetUID wrote into it; in every other case it returns 0 and the
buffer is untouched; the model state never changes. -/
theorem Ioctl_get_uid (a : ResponderAccess W) (command : ModelIoctl)
    (data : List Nat) (length : Nat) (s : Firmware W) :
    ((MovingLightModel_Ioctl a command data length s).1 = 1 ↔
      (command = ModelIoctl.IOCTL_GET_UID ∧ length = UID_LENGTH)) ∧
    ((command = ModelIoctl.IOCTL_GET_UID ∧ length = UID_LENGTH) →
      (MovingLightModel_Ioctl a command data length s).2.1
        = a.RDMResponder_GetUID data s.world) ∧
    (¬ (command = ModelIoctl.IOCTL_GET_UID ∧ length = UID_LENGTH) →
      MovingLightModel_Ioctl a command data length s = (0, data, s)) ∧
    (MovingLightModel_Ioctl a command data length s).2.2.g_moving_light
      = s.g_moving_light ∧
    (MovingLightModel_Ioctl a command data length s).2.2.world = s.world ∧
    UID_LENGTH = 6 := by
  cases command
  · by_cases hlen : length = UID_LENGTH
    · simp [MovingLightModel_Ioctl, hlen]
      rfl
    · simp [MovingLightModel_Ioctl, hlen]
      rfl
  · simp [MovingLightModel_Ioctl]
    rfl

/-- C28 (as amended): MovingLightModel_Activate stores the model's responder
definition in `g_responder.def` and calls
RDMResponder_ResetToFactoryDefaults, which acts on the responder's state; the
model's own fields are left exactly as they were.  The values of
MovingLightModel_Initialize are those of the listed fields only after
MovingLightModel_Initialize itself. -/
theorem Activate_installs_definition (a : ResponderAccess W) (k : Constants)
    (s : Firmware W) :
    (MovingLightModel_Activate a k s).world
      = a.RDMResponder_ResetToFactoryDefaults
          (a.store_g_responder_def (RESPONDER_DEFINITION k) s.world) ∧
    (MovingLightModel_Activate a k s).calls = s.calls ++ [Call.ResetToFactoryDefaults] ∧
    (MovingLightModel_Activate a k s).g_moving_light = s.g_moving_light ∧
    MovingLightModel_Initialize =
      { device_hours := 0, lamp_hours := 0, lamp_strikes := 0, device_power_cycles := 0,
        lamp_strike_time := 0, lamp_state := LAMP_OFF, lamp_on_mode := LAMP_ON_MODE_ON,
        display_level := 255, display_invert := 0, power_state := POWER_STATE_NORMAL,
        pan_invert := false, tilt_invert := false, pan_tilt_swap := false } := by
  exact ⟨rfl, rfl, rfl, rfl⟩

/-- C29: the frame-layout constants add up: the parameter data offset (24)
plus the maximum parameter data size (231) plus the checksum length (2) is the
maximum frame size (257), so header, data and checksum fit in 257 bytes for
every parameter-data length up to 231; the parameter-data length sits in the
byte before the parameter data, and the message length at offset 2. -/
theorem frame_layout_constants :
    RDM_PARAM_DATA_OFFSET = 24 ∧ MAX_PARAM_DATA_SIZE = 231 ∧ RDM_CHECKSUM_LENGTH = 2 ∧
    RDM_MAX_FRAME_SIZE = 257 ∧
    RDM_PARAM_DATA_OFFSET + MAX_PARAM_DATA_SIZE + RDM_CHECKSUM_LENGTH = RDM_MAX_FRAME_SIZE ∧
    (∀ param_data_length, param_data_length ≤ MAX_PARAM_DATA_SIZE →
      RDM_PARAM_DATA_OFFSET + param_data_length + RDM_CHECKSUM_LENGTH ≤ RDM_MAX_FRAME_SIZE) ∧
    RDM_PARAM_DATA_LENGTH_OFFSET = 23 ∧
    RDM_PARAM_DATA_LENGTH_OFFSET + 1 = RDM_PARAM_DATA_OFFSET ∧
    MESSAGE_LENGTH_OFFSET = 2 := by
  refine ⟨rfl, rfl, rfl, rfl, rfl, ?_, rfl, rfl, rfl⟩
  intro n hn
  simp only [RDM_PARAM_DATA_OFFSET, MAX_PARAM_DATA_SIZE, RDM_CHECKSUM_LENGTH,
    RDM_MAX_FRAME_SIZE] at hn ⊢
  omega

theorem find?_reverse_of_nodup_pid (k : Nat) :
    ∀ l : List PIDDescriptor, (l.map (fun d => d.pid)).Nodup →
      l.reverse.find? (fun d => d.pid == k) = l.find? (fun d => d.pid == k) := by
  intro l
  induction l with
  | nil => intro _; rfl
  | cons d ds ih =>
    intro hnd
    rw [List.map_cons, List.nodup_cons] at hnd
    rw [List.reverse_cons, List.find?_append, ih hnd.2]
    by_cases hk : d.pid = k
    · have hnone : ds.find? (fun e => e.pid == k) = none := by
        rw [List.find?_eq_none]
        intro e he hek
        apply hnd.1
        rw [List.mem_map]
        exact ⟨e, he, by rw [beq_iff_eq] at hek; rw [hek, hk]⟩
      simp [hnone, List.find?_cons, hk]
    · cases hfind : ds.find? (fun e => e.pid == k) <;> simp [List.find?_cons, hk, hfind]

/-- C30: no two entries of PID_DESCRIPTORS carry the same parameter ID, so a
linear lookup by PID finds the same descriptor whether the table is scanned
forwards or backwards, and at most one entry matches; the table has 26
entries and descriptor_count is 26. -/
theorem PID_DESCRIPTORS_unique (k : Constants) :
    (PID_DESCRIPTORS.map (fun d => d.pid)).Nodup ∧
    (∀ pid, PID_DESCRIPTORS.reverse.find? (fun d => d.pid == pid)
      = PID_DESCRIPTORS.find? (fun d => d.pid == pid)) ∧
    (∀ pid, (PID_DESCRIPTORS.filter (fun d => d.pid == pid)).length ≤ 1) ∧
    PID_DESCRIPTORS.length = 26 ∧
    (RESPONDER_DEFINITION k).descriptors = PID_DESCRIPTORS ∧
    (RESPONDER_DEFINITION k).descriptor_count = 26 := by
  have hnd : (PID_DESCRIPTORS.map (fun d => d.pid)).Nodup := by decide
  refine ⟨hnd, fun pid => find?_reverse_of_nodup_pid pid _ hnd, ?_, rfl, rfl, rfl⟩
  intro pid
  have hcount : (PID_DESCRIPTORS.map (fun d => d.pid)).count pid ≤ 1 :=
    List.nodup_iff_count_le_one.mp hnd pid
  rw [List.count, List.countP_map, List.countP_eq_length_filter] at hcount
  exact hcount

end LifecycleTheorems

/-! ## Personalities, the state invariant and the typed handlers -/

section TableTheorems
variable {W : Type}

/-- C31: the personality table is well formed: it has two entries and
personality_count is 2; for each personality slot_count equals dmx_footprint
and the number of slot definitions (4 for the first, 6 for the second), so
every slot index below slot_count is a valid index of its slots; and the two
footprints differ. -/
theorem PERSONALITIES_well_formed (k : Constants) :
    PERSONALITIES.length = 2 ∧
    (RESPONDER_DEFINITION k).personalities = PERSONALITIES ∧
    (RESPONDER_DEFINITION k).personality_count = PERSONALITIES.length ∧
    (∀ personality ∈ PERSONALITIES,
      personality.slot_count = personality.dmx_footprint ∧
      personality.slot_count = personality.slots.length ∧
      ∀ i, i < personality.slot_count → (personality.slots.get? i).isSome = true) ∧
    PERSONALITIES.map (fun personality => personality.dmx_footprint) = [4, 6] ∧
    PERSONALITIES.map (fun personality => personality.slots.length) = [4, 6] ∧
    (PERSONALITIES.map (fun personality => personality.dmx_footprint)).Nodup := by
  refine ⟨rfl, rfl, rfl, ?_, rfl, rfl, by decide⟩
  intro personality hmem
  simp only [PERSONALITIES, List.mem_cons, List.mem_singleton, List.not_mem_nil,
    or_false] at hmem
  rcases hmem with rfl | rfl
  · refine ⟨rfl, rfl, ?_⟩
    intro i hi
    have hi4 : i < 4 := hi
    interval_cases i <;> rfl
  · refine ⟨rfl, rfl, ?_⟩
    intro i hi
    have hi6 : i < 6 := hi
    interval_cases i <;> rfl

/-- C32: the state invariant (lamp_state is LAMP_OFF, LAMP_ON or LAMP_STRIKE,
lamp_on_mode is at most LAMP_ON_MODE_ON_AFTER_CAL, display_invert is at most
DISPLAY_INVERT_AUTO) holds after MovingLightModel_Initialize and is preserved
by every handler of the PID table, for every header and parameter data, and
by MovingLightModel_Tasks. -/
theorem StateInvariant_preserved (p : Primitives W)
    (standard : PIDCommandHandler → RDMHeader → List Nat → W → Int × W)
    (handler : PIDCommandHandler) (header : RDMHeader) (param_data : List Nat)
    (s : Firmware W) (hinv : StateInvariant s.g_moving_light) :
    StateInvariant MovingLightModel_Initialize ∧
    StateInvariant (invokeHandler p standard handler header param_data s).2.g_moving_light ∧
    StateInvariant (MovingLightModel_Tasks p s).g_moving_light := by
  refine ⟨⟨Or.inl rfl, by decide, by decide⟩, ?_, ?_⟩
  · obtain ⟨hlamp, hmode, hinvert⟩ := hinv
    cases handler
    case MovingLightModel_SetLampState =>
      simp only [invokeHandler, MovingLightModel_SetLampState]
      by_cases hlen : header.param_data_length ≠ 1
      · simpa [hlen, call_BuildNack, StateInvariant] using ⟨hlamp, hmode, hinvert⟩
      · by_cases hgt : byteAt param_data 0 > LAMP_STRIKE
        · simpa [hlen, hgt, call_BuildNack, StateInvariant] using ⟨hlamp, hmode, hinvert⟩
        · have hle : byteAt param_data 0 ≤ 2 := Nat.not_lt.mp hgt
          have hval : byteAt param_data 0 = LAMP_OFF ∨ byteAt param_data 0 = LAMP_ON ∨
              byteAt param_data 0 = LAMP_STRIKE := by
            simp only [LAMP_OFF, LAMP_ON, LAMP_STRIKE]
            omega
          simp only [hlen, hgt, if_false, call_BuildSetAck, StateInvariant]
          refine ⟨?_, ?_, ?_⟩
          · split_ifs <;> exact hval
          · split_ifs <;> exact hmode
          · split_ifs <;> exact hinvert
    case MovingLightModel_SetLampOnMode =>
      simp only [invokeHandler, MovingLightModel_SetLampOnMode]
      by_cases hlen : header.param_data_length ≠ 1
      · simpa [hlen, call_BuildNack, StateInvariant] using ⟨hlamp, hmode, hinvert⟩
      · by_cases hgt : byteAt param_data 0 > LAMP_ON_MODE_ON_AFTER_CAL
        · simpa [hlen, hgt, call_BuildNack, StateInvariant] using ⟨hlamp, hmode, hinvert⟩
        · simp only [hlen, hgt, if_false, call_BuildSetAck, StateInvariant]
          exact ⟨hlamp, Nat.not_lt.mp hgt, hinvert⟩
    case MovingLightModel_SetDisplayInvert =>
      simp only [invokeHandler, MovingLightModel_SetDisplayInvert]
      by_cases hlen : header.param_data_length ≠ 1
      · simpa [hlen, call_BuildNack, StateInvariant] using ⟨hlamp, hmode, hinvert⟩
      · by_cases hgt : byteAt param_data 0 > DISPLAY_INVERT_AUTO
        · simpa [hlen, hgt, call_BuildNack, StateInvariant] using ⟨hlamp, hmode, hinvert⟩
        · simp only [hlen, hgt, if_false, call_BuildSetAck, StateInvariant]
          exact ⟨hlamp, hmode, Nat.not_lt.mp hgt⟩
    case MovingLightModel_SetPowerState =>
      simp only [invokeHandler, MovingLightModel_SetPowerState]
      split_ifs <;> exact ⟨hlamp, hmode, hinvert⟩
    case MovingLightModel_GetBool =>
      simp only [invokeHandler, MovingLightModel_GetBool]
      split_ifs <;> exact ⟨hlamp, hmode, hinvert⟩
    case MovingLightModel_SetBool =>
      simp only [invokeHandler, MovingLightModel_SetBool]
      split_ifs <;> exact ⟨hlamp, hmode, hinvert⟩
    case MovingLightModel_GetUInt8 =>
      simp only [invokeHandler, MovingLightModel_GetUInt8]
      split_ifs <;> exact ⟨hlamp, hmode, hinvert⟩
    case MovingLightModel_SetUInt8 =>
      simp only [invokeHandler, MovingLightModel_SetUInt8]
      split_ifs <;> exact ⟨hlamp, hmode, hinvert⟩
    case MovingLightModel_GetUInt32 =>
      simp only [invokeHandler, MovingLightModel_GetUInt32]
      split_ifs <;> exact ⟨hlamp, hmode, hinvert⟩
    case MovingLightModel_SetUInt32 =>
      simp only [invokeHandler, MovingLightModel_SetUInt32]
      split_ifs <;> exact ⟨hlamp, hmode, hinvert⟩
    all_goals exact ⟨hlamp, hmode, hinvert⟩
  · obtain ⟨hlamp, hmode, hinvert⟩ := hinv
    simp only [MovingLightModel_Tasks]
    split_ifs
    · exact ⟨Or.inr (Or.inl rfl), hmode, hinvert⟩
    · exact ⟨hlamp, hmode, hinvert⟩

/-- C33: MovingLightModel_SetPowerState never answers with
NACK(data-out-of-range): its bound is POWER_STATE_NORMAL = 0xff, so with a
one-byte payload every value 0..255 is stored in power_state and acknowledged
with the set-ACK, 0x03 included although it is none of the four defined power
states; the only NACK it builds is the format error for a length other than
1. -/
theorem SetPowerState_accepts_every_byte (p : Primitives W) (header : RDMHeader)
    (param_data : List Nat) (s : Firmware W) :
    POWER_STATE_NORMAL = 0xff ∧
    (header.param_data_length = 1 →
      IsSetAck p header { s.g_moving_light with power_state := byteAt param_data 0 } s
        (MovingLightModel_SetPowerState p header param_data s)) ∧
    (header.param_data_length ≠ 1 →
      IsNack p header NR_FORMAT_ERROR s
        (MovingLightModel_SetPowerState p header param_data s)) ∧
    ¬ IsNack p header NR_DATA_OUT_OF_RANGE s
        (MovingLightModel_SetPowerState p header param_data s) ∧
    (∀ v, v < 256 → header.param_data_length = 1 →
      IsSetAck p header { s.g_moving_light with power_state := v } s
        (MovingLightModel_SetPowerState p header [v] s)) ∧
    (3 ∉ [POWER_STATE_FULL_OFF, POWER_STATE_SHUTDOWN, POWER_STATE_STANDBY,
        POWER_STATE_NORMAL] ∧
      (header.param_data_length = 1 →
        (MovingLightModel_SetPowerState p header [3] s).2.g_moving_light.power_state = 3)) := by
  have hbyte : ∀ data : List Nat, ¬ byteAt data 0 > POWER_STATE_NORMAL := by
    intro data
    have hlt : byteAt data 0 < 256 := Nat.mod_lt _ (by decide)
    simp only [POWER_STATE_NORMAL]
    omega
  have hack : ∀ data : List Nat, header.param_data_length = 1 →
      IsSetAck p header { s.g_moving_light with power_state := byteAt data 0 } s
        (MovingLightModel_SetPowerState p header data s) := by
    intro data hlen
    simp [MovingLightModel_SetPowerState, hlen, hbyte data, IsSetAck, call_BuildSetAck]
  refine ⟨rfl, hack param_data, ?_, ?_, ?_, by decide, ?_⟩
  · intro hlen
    simp [MovingLightModel_SetPowerState, hlen, IsNack, call_BuildNack]
  · rintro ⟨-, -, hcalls, -⟩
    by_cases hlen : header.param_data_length ≠ 1
    · simp [MovingLightModel_SetPowerState, hlen, call_BuildNack, NR_FORMAT_ERROR,
        NR_DATA_OUT_OF_RANGE] at hcalls
    · simp [MovingLightModel_SetPowerState, hlen, hbyte param_data, call_BuildSetAck]
        at hcalls
  · intro v hv hlen
    have hb : byteAt [v] 0 = v := by simp [byteAt, Nat.mod_eq_of_lt hv]
    have h := hack [v] hlen
    rw [hb] at h
    exact h
  · intro hlen
    have h := (hack [3] hlen).2.2.2
    rw [h]
    rfl

/-- C34: table and handlers agree.  Every entry of PID_DESCRIPTORS has a get
handler.  The case labels of each typed handler are exactly the PIDs for which
it calls a generic getter or setter; for any other PID it takes the default
branch and returns RDM_RESPONDER_NO_RESPONSE with the state unchanged.  Every
entry of the table whose get or set handler is a typed handler carries a PID
among that handler's case labels, so a request for the entry's PID never takes
the default branch. -/
theorem table_handlers_have_cases (p : Primitives W)
    (standard : PIDCommandHandler → RDMHeader → List Nat → W → Int × W)
    (header : RDMHeader) (param_data : List Nat) (s : Firmware W) :
    (∀ d ∈ PID_DESCRIPTORS, d.get_handler.isSome = true) ∧
    (∀ d ∈ PID_DESCRIPTORS, ∀ handler ∈ typedHandlers,
      (d.get_handler = some handler ∨ d.set_handler = some handler) →
      d.pid ∈ switchCases handler) ∧
    (∀ handler ∈ typedHandlers,
      (ntohs header.param_id ∈ switchCases handler →
        ∃ call, (invokeHandler p standard handler header param_data s).2.calls
          = s.calls ++ [call]) ∧
      (ntohs header.param_id ∉ switchCases handler →
        invokeHandler p standard handler header param_data s
          = (p.RDM_RESPONDER_NO_RESPONSE, s))) ∧
    (∀ d ∈ PID_DESCRIPTORS, ∀ handler ∈ typedHandlers,
      (d.get_handler = some handler ∨ d.set_handler = some handler) →
      ntohs header.param_id = d.pid →
      ∃ call, (invokeHandler p standard handler header param_data s).2.calls
        = s.calls ++ [call]) := by
  have htable : ∀ d ∈ PID_DESCRIPTORS, ∀ handler ∈ typedHandlers,
      (d.get_handler = some handler ∨ d.set_handler = some handler) →
      d.pid ∈ switchCases handler := by decide
  suffices hswitch : ∀ handler ∈ typedHandlers,
      (ntohs header.param_id ∈ switchCases handler →
        ∃ call, (invokeHandler p standard handler header param_data s).2.calls
          = s.calls ++ [call]) ∧
      (ntohs header.param_id ∉ switchCases handler →
        invokeHandler p standard handler header param_data s
          = (p.RDM_RESPONDER_NO_RESPONSE, s)) from
    ⟨by decide, htable, hswitch, fun d hd handler hh hor hpid =>
      (hswitch handler hh).1 (hpid ▸ htable d hd handler hh hor)⟩
  intro handler hmem
  simp only [typedHandlers, List.mem_cons, List.mem_singleton, List.not_mem_nil,
    or_false] at hmem
  rcases hmem with rfl | rfl | rfl | rfl | rfl | rfl
  · constructor
    · intro hcase
      simp only [switchCases, List.mem_cons, List.mem_singleton, List.not_mem_nil,
        or_false] at hcase
      rcases hcase with hp | hp | hp <;>
        simp [invokeHandler, MovingLightModel_GetBool, hp, call_GenericGetBool,
          PID_PAN_INVERT, PID_TILT_INVERT, PID_PAN_TILT_SWAP]
    · intro hcase
      simp only [switchCases, List.mem_cons, List.mem_singleton, List.not_mem_nil,
        or_false, not_or] at hcase
      simp [invokeHandler, MovingLightModel_GetBool, hcase]
  · constructor
    · intro hcase
      simp only [switchCases, List.mem_cons, List.mem_singleton, List.not_mem_nil,
        or_false] at hcase
      rcases hcase with hp | hp | hp <;>
        simp [invokeHandler, MovingLightModel_SetBool, hp, call_GenericSetBool, storeField,
          PID_PAN_INVERT, PID_TILT_INVERT, PID_PAN_TILT_SWAP]
    · intro hcase
      simp only [switchCases, List.mem_cons, List.mem_singleton, List.not_mem_nil,
        or_false, not_or] at hcase
      simp [invokeHandler, MovingLightModel_SetBool, hcase]
  · constructor
    · intro hcase
      simp only [switchCases, List.mem_cons, List.mem_singleton, List.not_mem_nil,
        or_false] at hcase
      rcases hcase with hp | hp | hp | hp | hp <;>
        simp [invokeHandler, MovingLightModel_GetUInt8, hp, call_GenericGetUInt8,
          PID_LAMP_STATE, PID_LAMP_ON_MODE, PID_DISPLAY_INVERT, PID_DISPLAY_LEVEL,
          PID_POWER_STATE]
    · intro hcase
      simp only [switchCases, List.mem_cons, List.mem_singleton, List.not_mem_nil,
        or_false, not_or] at hcase
      simp [invokeHandler, MovingLightModel_GetUInt8, hcase]
  · constructor
    · intro hcase
      simp only [switchCases, List.mem_cons, List.mem_singleton, List.not_mem_nil,
        or_false] at hcase
      simp [invokeHandler, MovingLightModel_SetUInt8, hcase, call_GenericSetUInt8,
        storeField]
    · intro hcase
      simp only [switchCases, List.mem_cons, List.mem_singleton, List.not_mem_nil,
        or_false] at hcase
      simp [invokeHandler, MovingLightModel_SetUInt8, hcase]
  · constructor
    · intro hcase
      simp only [switchCases, List.mem_cons, List.mem_singleton, List.not_mem_nil,
        or_false] at hcase
      rcases hcase with hp | hp | hp | hp <;>
        simp [invokeHandler, MovingLightModel_GetUInt32, hp, call_GenericGetUInt32,
          PID_DEVICE_HOURS, PID_LAMP_HOURS, PID_LAMP_STRIKES, PID_DEVICE_POWER_CYCLES]
    · intro hcase
      simp only [switchCases, List.mem_cons, List.mem_singleton, List.not_mem_nil,
        or_false, not_or] at hcase
      simp [invokeHandler, MovingLightModel_GetUInt32, hcase]
  · constructor
    · intro hcase
      simp only [switchCases, List.mem_cons, List.mem_singleton, List.not_mem_nil,
        or_false] at hcase
      rcases hcase with hp | hp | hp | hp <;>
        simp [invokeHandler, MovingLightModel_SetUInt32, hp, call_GenericSetUInt32,
          storeField, PID_DEVICE_HOURS, PID_LAMP_HOURS, PID_LAMP_STRIKES,
          PID_DEVICE_POWER_CYCLES]
    · intro hcase
      simp only [switchCases, List.mem_cons, List.mem_singleton, List.not_mem_nil,
        or_false, not_or] at hcase
      simp [invokeHandler, MovingLightModel_SetUInt32, hcase]

end TableTheorems

/-! ## The theorems at concrete requests -/

section Examples
open Sample

theorem HandleRequest_not_addressed_witness :
    collaborators.RDMUtil_RequiresAction (collaborators.g_responder_uid initial.world)
        (requestElsewhere GET_COMMAND PID_LAMP_STATE 0).dest_uid = false ∧
    MovingLightModel_HandleRequest collaborators
        (requestElsewhere GET_COMMAND PID_LAMP_STATE 0) [] initial = (0, initial) :=
  ⟨by decide, HandleRequest_not_addressed collaborators _ [] initial (by decide)⟩

theorem HandleRequest_sub_device_out_of_range_witness :
    ntohs (requestSub 1 SET_COMMAND PID_LAMP_STATE 1).sub_device = 1 ∧
    IsNack primitives (requestSub 1 SET_COMMAND PID_LAMP_STATE 1)
      NR_SUB_DEVICE_OUT_OF_RANGE initial
      (MovingLightModel_HandleRequest collaborators
        (requestSub 1 SET_COMMAND PID_LAMP_STATE 1) [LAMP_ON] initial) :=
  ⟨by decide,
   HandleRequest_sub_device_out_of_range collaborators _ [LAMP_ON] initial
     (by decide) (by decide) (by decide)⟩

theorem HandleRequest_get_all_sub_devices_witness :
    ntohs (requestSub 0xffff GET_COMMAND PID_LAMP_STATE 0).sub_device = SUBDEVICE_ALL ∧
    IsNack primitives (requestSub 0xffff GET_COMMAND PID_LAMP_STATE 0)
      NR_SUB_DEVICE_OUT_OF_RANGE initial
      (MovingLightModel_HandleRequest collaborators
        (requestSub 0xffff GET_COMMAND PID_LAMP_STATE 0) [] initial) :=
  ⟨by decide,
   HandleRequest_get_all_sub_devices collaborators _ [] initial
     (by decide) (by decide) (by decide)⟩

theorem HandleRequest_dispatches_witness :
    MovingLightModel_HandleRequest collaborators
        (requestSub 0xffff SET_COMMAND PID_LAMP_STATE 1) [LAMP_ON] initial
      = collaborators.RDMResponder_DispatchPID
          (requestSub 0xffff SET_COMMAND PID_LAMP_STATE 1) [LAMP_ON]
          { initial with calls := initial.calls ++
              [Call.DispatchPID (requestSub 0xffff SET_COMMAND PID_LAMP_STATE 1) [LAMP_ON]] } :=
  HandleRequest_dispatches collaborators _ [LAMP_ON] initial
    (by decide) (by decide) (Or.inr ⟨by decide, by decide⟩)

/-- C5 (as stated) fails: a broadcast Discovery-Unique-Branch over the whole
UID range, addressed to sub-device 1, requires action and has class
DISCOVERY_COMMAND; the discovery handler would answer it with the 24-byte DUB
reply, but the request handler returns the 28-byte NACK frame for
NR_SUB_DEVICE_OUT_OF_RANGE and never calls the discovery handler. -/
theorem HandleRequest_discovery_counterexample :
    collaborators.RDMUtil_RequiresAction (collaborators.g_responder_uid initial.world)
        (dubRequest 1).dest_uid = true ∧
    (dubRequest 1).command_class = DISCOVERY_COMMAND ∧
    (collaborators.RDMResponder_HandleDiscovery (dubRequest 1) fullRange initial).1 = 24 ∧
    (MovingLightModel_HandleRequest collaborators (dubRequest 1) fullRange initial).1 = 28 ∧
    (MovingLightModel_HandleRequest collaborators (dubRequest 1) fullRange initial).2.calls
      = [Call.BuildNack (dubRequest 1) NR_SUB_DEVICE_OUT_OF_RANGE] ∧
    MovingLightModel_HandleRequest collaborators (dubRequest 1) fullRange initial
      ≠ collaborators.RDMResponder_HandleDiscovery (dubRequest 1) fullRange
          { initial with calls := initial.calls ++
              [Call.HandleDiscovery (dubRequest 1) fullRange] } := by
  decide

theorem HandleRequest_discovery_witness :
    (MovingLightModel_HandleRequest collaborators (dubRequest 0) fullRange initial).1 = 24 ∧
    MovingLightModel_HandleRequest collaborators (dubRequest 0) fullRange initial
      = collaborators.RDMResponder_HandleDiscovery (dubRequest 0) fullRange
          { initial with calls := initial.calls ++
              [Call.HandleDiscovery (dubRequest 0) fullRange] } :=
  ⟨by decide,
   (HandleRequest_discovery collaborators (dubRequest 0) fullRange initial
     (by decide) (by decide)).1 (Or.inl (by decide))⟩

theorem enumerated_setters_format_error_witness :
    (request SET_COMMAND PID_LAMP_STATE 2).param_data_length ≠ 1 ∧
    IsNack primitives (request SET_COMMAND PID_LAMP_STATE 2) NR_FORMAT_ERROR initial
      (MovingLightModel_SetLampState primitives (request SET_COMMAND PID_LAMP_STATE 2)
        [LAMP_ON, 0] initial) ∧
    IsNack primitives (request SET_COMMAND PID_LAMP_STATE 2) NR_FORMAT_ERROR initial
      (MovingLightModel_SetLampOnMode primitives (request SET_COMMAND PID_LAMP_STATE 2)
        [LAMP_ON, 0] initial) ∧
    IsNack primitives (request SET_COMMAND PID_LAMP_STATE 2) NR_FORMAT_ERROR initial
      (MovingLightModel_SetDisplayInvert primitives (request SET_COMMAND PID_LAMP_STATE 2)
        [LAMP_ON, 0] initial) ∧
    IsNack primitives (request SET_COMMAND PID_LAMP_STATE 2) NR_FORMAT_ERROR initial
      (MovingLightModel_SetPowerState primitives (request SET_COMMAND PID_LAMP_STATE 2)
        [LAMP_ON, 0] initial) :=
  ⟨by decide,
   enumerated_setters_format_error primitives (request SET_COMMAND PID_LAMP_STATE 2)
     [LAMP_ON, 0] initial (by decide)⟩

theorem enumerated_setters_range_witness :
    IsNack primitives (request SET_COMMAND PID_LAMP_STATE 1) NR_DATA_OUT_OF_RANGE initial
      (MovingLightModel_SetLampState primitives (request SET_COMMAND PID_LAMP_STATE 1)
        [3] initial) ∧
    IsSetAck primitives (request SET_COMMAND PID_LAMP_STATE 1)
      { initial.g_moving_light with lamp_on_mode := 3 } initial
      (MovingLightModel_SetLampOnMode primitives (request SET_COMMAND PID_LAMP_STATE 1)
        [3] initial) ∧
    IsNack primitives (request SET_COMMAND PID_LAMP_STATE 1) NR_DATA_OUT_OF_RANGE initial
      (MovingLightModel_SetDisplayInvert primitives (request SET_COMMAND PID_LAMP_STATE 1)
        [3] initial) :=
  have h := enumerated_setters_range primitives (request SET_COMMAND PID_LAMP_STATE 1) 3
    initial (by decide) (by decide)
  ⟨h.1 (by decide), h.2.2.2.1 (by decide), h.2.2.2.2.1 (by decide)⟩

theorem SetLampState_off_to_on_witness :
    initial.g_moving_light.lamp_strikes = 0 ∧
    (MovingLightModel_SetLampState primitives (request SET_COMMAND PID_LAMP_STATE 1)
      [LAMP_ON] initial).2.g_moving_light.lamp_strikes = 1 ∧
    (MovingLightModel_SetLampState primitives (request SET_COMMAND PID_LAMP_STATE 1)
      [LAMP_ON]
      (MovingLightModel_SetLampState primitives (request SET_COMMAND PID_LAMP_STATE 1)
        [LAMP_ON] initial).2).2.g_moving_light.lamp_strikes = 1 :=
  have h := SetLampState_off_to_on primitives (request SET_COMMAND PID_LAMP_STATE 1)
    initial (by decide) (by decide)
  ⟨by decide, h.1.2.2.2 ▸ by decide, h.2.2.2.2 ▸ h.1.2.2.2 ▸ by decide⟩

theorem lamp_strikes_only_on_transition_witness :
    initial.g_moving_light.lamp_state ≠ LAMP_ON ∧
    (MovingLightModel_SetLampState primitives (request SET_COMMAND PID_LAMP_STATE 1)
      [LAMP_ON] initial).2.g_moving_light.lamp_state = LAMP_ON ∧
    (MovingLightModel_SetLampState primitives (request SET_COMMAND PID_LAMP_STATE 1)
      [LAMP_ON] initial).2.g_moving_light.lamp_strikes
        = (initial.g_moving_light.lamp_strikes + 1) % 2 ^ 32 :=
  (lamp_strikes_only_on_transition primitives (request SET_COMMAND PID_LAMP_STATE 1)
    [LAMP_ON] initial).1 (by decide)

/-- C10 at the failing run: from the initialised model (lamp_state = LAMP_OFF,
lamp_strikes = 0), SET lamp-state [LAMP_STRIKE] followed by SET lamp-state
[LAMP_ON] passes through lamp_state = LAMP_STRIKE and reaches lamp_state =
LAMP_ON for the first time with lamp_strikes still 0: the off-to-on
transition is not counted. -/
theorem lamp_strike_then_set_on_not_counted :
    initial.g_moving_light.lamp_state = LAMP_OFF ∧
    initial.g_moving_light.lamp_strikes = 0 ∧
    (lampTrace primitives initial
        [LampEvent.set (request SET_COMMAND PID_LAMP_STATE 1) [LAMP_STRIKE],
         LampEvent.set (request SET_COMMAND PID_LAMP_STATE 1) [LAMP_ON]]).map
      (fun s => (s.g_moving_light.lamp_state, s.g_moving_light.lamp_strikes))
      = [(LAMP_STRIKE, 0), (LAMP_ON, 0)] := by
  decide

theorem Tasks_strike_to_on_witness :
    (MovingLightModel_Tasks primitives (striking 49999)) = striking 49999 ∧
    (MovingLightModel_Tasks primitives (striking 50000)).g_moving_light
      = { (striking 50000).g_moving_light with lamp_state := LAMP_ON, lamp_strikes := 1 } :=
  ⟨(Tasks_strike_to_on primitives (striking 49999)).2.1 (by decide),
   congrArg Firmware.g_moving_light
     ((Tasks_strike_to_on primitives (striking 50000)).1 (by decide)).1⟩

theorem set_get_round_trip_witness :
    replyData (MovingLightModel_GetUInt8 primitives
        (request GET_COMMAND PID_DISPLAY_LEVEL 0) []
        (MovingLightModel_SetUInt8 primitives
          (request SET_COMMAND PID_DISPLAY_LEVEL 1) [0xff] initial).2).2.world.reply
      = some (ACK, [0xff]) :=
  ((set_get_round_trip primitives (request SET_COMMAND PID_DISPLAY_LEVEL 1)
      (request GET_COMMAND PID_DISPLAY_LEVEL 0) [0xff] [] initial).2.2.2.2
    0xff (by decide)).2.2

theorem enumerated_setters_idempotent_witness :
    (request SET_COMMAND PID_LAMP_ON_MODE 1).param_data_length = 1 ∧
    IsSetAck primitives (request SET_COMMAND PID_LAMP_ON_MODE 1)
      { initial.g_moving_light with lamp_on_mode := LAMP_ON_MODE_DMX }
      (MovingLightModel_SetLampOnMode primitives
        (request SET_COMMAND PID_LAMP_ON_MODE 1) [LAMP_ON_MODE_DMX] initial).2
      (MovingLightModel_SetLampOnMode primitives
        (request SET_COMMAND PID_LAMP_ON_MODE 1) [LAMP_ON_MODE_DMX]
        (MovingLightModel_SetLampOnMode primitives
          (request SET_COMMAND PID_LAMP_ON_MODE 1) [LAMP_ON_MODE_DMX] initial).2) :=
  ⟨by decide,
   ((enumerated_setters_idempotent primitives (request SET_COMMAND PID_LAMP_ON_MODE 1)
      [LAMP_ON_MODE_DMX] initial (by decide)).1 EnumField.lamp_on_mode (by decide)).2⟩

theorem HandleMessage_queue_witness :
    MessageHandler_HandleMessage host ⟨Command.COMMAND_RDM_REQUEST, [0xcc, 0x01], 2⟩ inFlight
      = Except.ok
        { env := inFlight.env
          events := [HostEvent.Transceiver_QueueRDMRequest 0 [0xcc, 0x01] 2,
            HostEvent.SendMessage Command.COMMAND_RDM_REQUEST
              ReturnCode.RC_BUFFER_FULL []] } ∧
    MessageHandler_HandleMessage host ⟨Command.COMMAND_RDM_REQUEST, [0xcc, 0x01], 2⟩ idle
      = Except.ok
        { env := inFlight.env
          events := [HostEvent.Transceiver_QueueRDMRequest 0 [0xcc, 0x01] 2] } :=
  ⟨(HandleMessage_queue host [0xcc, 0x01] 2 inFlight).2.2,
   (HandleMessage_queue host [0xcc, 0x01] 2 idle).2.2⟩

theorem timing_set_bad_length_witness :
    (3 : Nat) ≠ 2 ∧
    MessageHandler_HandleMessage host ⟨Command.SET_BREAK_TIME, [0x64, 0, 0], 3⟩ idle
      = Except.ok
        { env := idle.env
          events := [HostEvent.SendMessage Command.SET_BREAK_TIME
            ReturnCode.RC_BAD_PARAM []] } :=
  ⟨by decide, (timing_set_bad_length host [0x64, 0, 0] 3 idle (by decide)).1⟩

theorem timing_set_two_bytes_witness :
    MessageHandler_HandleMessage host ⟨Command.SET_BREAK_TIME, [0x64, 0], 2⟩ idle
      = Except.ok
        { env := { idle.env with break_time := 100 }
          events := [HostEvent.PayloadRead 0, HostEvent.PayloadRead 1,
            HostEvent.Transceiver_SetBreakTime 100,
            HostEvent.SendMessage Command.SET_BREAK_TIME ReturnCode.RC_OK []] } ∧
    MessageHandler_HandleMessage host ⟨Command.SET_MAB_TIME, [0, 0x10], 2⟩ idle
      = Except.ok
        { env := idle.env
          events := [HostEvent.PayloadRead 0, HostEvent.PayloadRead 1,
            HostEvent.Transceiver_SetMarkTime 4096,
            HostEvent.SendMessage Command.SET_MAB_TIME ReturnCode.RC_BAD_PARAM []] } :=
  ⟨(timing_set_two_bytes host 0x64 0 idle (by decide) (by decide)).2.1,
   (timing_set_two_bytes host 0 0x10 idle (by decide) (by decide)).2.2.1⟩

theorem timing_round_trip_witness :
    (MessageHandler_HandleMessage host ⟨Command.SET_BREAK_TIME, [0x64, 0x00], 2⟩ idle).bind
        (MessageHandler_HandleMessage host ⟨Command.GET_BREAK_TIME, [], 0⟩)
      = Except.ok
        { env := { idle.env with break_time := 100 }
          events := [HostEvent.PayloadRead 0, HostEvent.PayloadRead 1,
            HostEvent.Transceiver_SetBreakTime 100,
            HostEvent.SendMessage Command.SET_BREAK_TIME ReturnCode.RC_OK [],
            HostEvent.Transceiver_GetBreakTime,
            HostEvent.SendMessage Command.GET_BREAK_TIME ReturnCode.RC_OK
              [⟨[0x64, 0x00], 2⟩]] } :=
  (timing_round_trip host 0x64 0x00 [] 0 idle (by decide) (by decide)).1
    (by decide) (by decide)

theorem HandleMessage_write_log_witness :
    MessageHandler_HandleMessage host ⟨Command.WRITE_LOG, [0x68, 0x69], 2⟩ idle
      = Except.ok
        { env := { idle.env with log := [0x68, 0x69, 0] }
          events := [HostEvent.Logger_Write [0x68, 0x69] 2, HostEvent.PayloadRead 1,
            HostEvent.Logger_Log [],
            HostEvent.SendMessage Command.WRITE_LOG ReturnCode.RC_OK []] } ∧
    MessageHandler_HandleMessage host ⟨Command.WRITE_LOG, [0x68, 0x69, 0], 3⟩ idle
      = Except.ok
        { env := { idle.env with log := [0x68, 0x69, 0] }
          events := [HostEvent.Logger_Write [0x68, 0x69, 0] 3, HostEvent.PayloadRead 2,
            HostEvent.SendMessage Command.WRITE_LOG ReturnCode.RC_OK []] } :=
  ⟨(HandleMessage_write_log host [0x68, 0x69] 2 idle (by decide) (by decide)).1 (by decide),
   (HandleMessage_write_log host [0x68, 0x69, 0] 3 idle (by decide) (by decide)).2
     (by decide)⟩

theorem Ioctl_get_uid_witness :
    MovingLightModel_Ioctl access ModelIoctl.IOCTL_GET_UID [0, 0, 0, 0, 0, 0] 6 used
      = (1, [0x7a, 0x70, 0, 0, 0, 1], { used with calls := [Call.GetUID] }) ∧
    MovingLightModel_Ioctl access ModelIoctl.IOCTL_GET_UID [0, 0, 0, 0, 0] 5 used
      = (0, [0, 0, 0, 0, 0], used) :=
  ⟨rfl, (Ioctl_get_uid access ModelIoctl.IOCTL_GET_UID [0, 0, 0, 0, 0] 5 used).2.2.1
     (by decide)⟩

/-- C28 (as stated) fails: on a device whose lamp is on with two strikes
counted, MovingLightModel_Activate installs the definition and resets the
responder, but lamp_state stays LAMP_ON and lamp_strikes stays 2, while
MovingLightModel_Initialize sets LAMP_OFF and 0. -/
theorem Activate_keeps_model_state_counterexample :
    (MovingLightModel_Activate access constants used).g_moving_light.lamp_state = LAMP_ON ∧
    MovingLightModel_Initialize.lamp_state = LAMP_OFF ∧
    (MovingLightModel_Activate access constants used).g_moving_light.lamp_strikes = 2 ∧
    MovingLightModel_Initialize.lamp_strikes = 0 ∧
    (MovingLightModel_Activate access constants used).g_moving_light
      ≠ MovingLightModel_Initialize ∧
    (MovingLightModel_Activate access constants used).world.current
      = some (RESPONDER_DEFINITION constants) ∧
    (MovingLightModel_Activate access constants used).world.responder.is_muted = false :=
  ⟨rfl, rfl, rfl, rfl, by decide, rfl, rfl⟩

theorem StateInvariant_preserved_witness :
    StateInvariant initial.g_moving_light ∧
    (invokeHandler primitives standardHandler PIDCommandHandler.MovingLightModel_SetLampState
      (request SET_COMMAND PID_LAMP_STATE 1) [LAMP_STRIKE] initial).2.g_moving_light.lamp_state
      = LAMP_STRIKE ∧
    StateInvariant
      (invokeHandler primitives standardHandler PIDCommandHandler.MovingLightModel_SetLampState
        (request SET_COMMAND PID_LAMP_STATE 1) [LAMP_STRIKE] initial).2.g_moving_light :=
  ⟨⟨Or.inl rfl, by decide, by decide⟩, by decide,
   (StateInvariant_preserved primitives standardHandler
     PIDCommandHandler.MovingLightModel_SetLampState
     (request SET_COMMAND PID_LAMP_STATE 1) [LAMP_STRIKE] initial
     ⟨Or.inl rfl, by decide, by decide⟩).2.1⟩

theorem SetPowerState_accepts_every_byte_witness :
    (MovingLightModel_SetPowerState primitives (request SET_COMMAND PID_POWER_STATE 1)
      [0x03] initial).2.g_moving_light.power_state = 0x03 ∧
    replyData (MovingLightModel_SetPowerState primitives
      (request SET_COMMAND PID_POWER_STATE 1) [0x03] initial).2.world.reply
      = some (ACK, []) :=
  ⟨((SetPowerState_accepts_every_byte primitives (request SET_COMMAND PID_POWER_STATE 1)
      [0x03] initial).2.2.2.2.2).2 (by decide),
   by decide⟩

theorem HandleMessage_at_most_one_witness :
    MessageHandler_HandleMessage host ⟨Command.WRITE_LOG, [], 0⟩ idle
      = Except.error
        { env := idle.env
          events := [HostEvent.Logger_Write [] 0, HostEvent.PayloadRead 4294967295] } ∧
    sentSince idle.events
      (reached (MessageHandler_HandleMessage host ⟨Command.WRITE_LOG, [], 0⟩ idle)).events
        = [] ∧
    MessageHandler_HandleMessage host ⟨Command.WRITE_LOG, [0], 1⟩ idle
      = Except.ok
        { env := { idle.env with log := [0] }
          events := [HostEvent.Logger_Write [0] 1, HostEvent.PayloadRead 0,
            HostEvent.SendMessage Command.WRITE_LOG ReturnCode.RC_OK []] } ∧
    MessageHandler_HandleMessage host ⟨Command.COMMAND_RESET_DEVICE, [], 0⟩ idle
      = Except.ok
        { env := { idle.env with resets := 1 }
          events := [HostEvent.APP_Reset,
            HostEvent.SendMessage Command.COMMAND_RESET_DEVICE ReturnCode.RC_OK []] } :=
  ⟨((HandleMessage_at_most_one host ⟨Command.WRITE_LOG, [], 0⟩ idle).2.2 ⟨rfl, rfl⟩).1,
   ((HandleMessage_at_most_one host ⟨Command.WRITE_LOG, [], 0⟩ idle).2.2 ⟨rfl, rfl⟩).2,
   rfl,
   (HandleMessage_at_most_one host ⟨Command.COMMAND_RESET_DEVICE, [], 0⟩ idle).2.1 rfl⟩

end Examples

end JaRule
